import Mathlib

/-!
Verification development for the Saviynt MCP server core
(`src/saviynt-mcp-server.ts`): profile store, token cache, authenticator,
API gateway and result shaper, shallowly embedded in Lean.

JavaScript `Map`s are modelled as association lists, `Date.now()` as an
integer timestamp parameter (milliseconds), JSON values as an inductive
`Jsonish` type, and `fetch` as oracle functions supplied by the
environment (already composed with `parseResponseBody`, so an oracle
yields the parsed body).
-/

namespace Saviynt

/-- Parsed JSON-ish value, the shape `parseResponseBody` produces:
objects, arrays, strings, numbers, booleans, null. All JSON numbers the
core ever inspects (statuses, expiry seconds, character counts) are
integral, so numbers are modelled as integers. -/
inductive Jsonish where
  | str (s : String)
  | num (q : Int)
  | bool (b : Bool)
  | null
  | obj (fields : List (String × Jsonish))
  | arr (items : List Jsonish)

/-- `String.trim` as a structural function on the character list
(JS `trim` strips surrounding whitespace). -/
def strTrim (s : String) : String :=
  ⟨((s.data.dropWhile Char.isWhitespace).reverse.dropWhile Char.isWhitespace).reverse⟩

/-- `String.prototype.startsWith` as a structural character-list test. -/
def strStartsWith (s front : String) : Bool :=
  front.data.isPrefixOf s.data

/-- Drop trailing characters satisfying `p`. -/
def strDropRightWhile (s : String) (p : Char → Bool) : String :=
  ⟨(s.data.reverse.dropWhile p).reverse⟩

/-- Drop leading characters satisfying `p`. -/
def strDropWhile (s : String) (p : Char → Bool) : String :=
  ⟨s.data.dropWhile p⟩

/-- `String.prototype.slice(0, n)` (character-based). -/
def strTake (s : String) (n : Nat) : String :=
  ⟨s.data.take n⟩

/-- Drop the first `n` characters. -/
def strDrop (s : String) (n : Nat) : String :=
  ⟨s.data.drop n⟩

/-- `String.prototype.toLowerCase` (ASCII model). -/
def strToLower (s : String) : String :=
  ⟨s.data.map Char.toLower⟩

/-- `String.prototype.toUpperCase` (ASCII model). -/
def strToUpper (s : String) : String :=
  ⟨s.data.map Char.toUpper⟩

/-- Association-list lookup, modelling `Map.get`. -/
def lookupKey {α : Type} (m : List (String × α)) (k : String) : Option α :=
  match m with
  | [] => none
  | (k', v) :: rest => if k' = k then some v else lookupKey rest k

/-- Association-list removal of a key. -/
def eraseKey {α : Type} (m : List (String × α)) (k : String) : List (String × α) :=
  m.filter (fun e => !(e.1 = k : Bool))

/-- Association-list update, modelling `Map.set`. -/
def setKey {α : Type} (m : List (String × α)) (k : String) (v : α) : List (String × α) :=
  (k, v) :: eraseKey m k

/-- Association-list membership, modelling `Map.has`. -/
def hasKey {α : Type} (m : List (String × α)) (k : String) : Bool :=
  (lookupKey m k).isSome

/-- Object-field access `payload[key]` on a `Jsonish` object. -/
def objGet (v : Jsonish) (k : String) : Option Jsonish :=
  match v with
  | .obj fields => lookupKey fields k
  | _ => none

/-- `isRecord(value)`: a non-null, non-array object. -/
def isRecord (v : Jsonish) : Bool :=
  match v with
  | .obj _ => true
  | _ => false

/-- `asString(value)`: keep a string whose trim is non-empty, returning
the trimmed string. -/
def asStringJ (v : Option Jsonish) : Option String :=
  match v with
  | some (.str s) =>
    let trimmed := strTrim s
    if trimmed.length > 0 then some trimmed else none
  | _ => none

/-- `asString` specialised to optional string inputs (the common case for
tool arguments typed `string | undefined`). -/
def asStringOpt (v : Option String) : Option String :=
  match v with
  | some s =>
    let trimmed := strTrim s
    if trimmed.length > 0 then some trimmed else none
  | none => none

/-- `asNumber(value)`: keep finite numbers. -/
def asNumberJ (v : Option Jsonish) : Option Int :=
  match v with
  | some (.num q) => some q
  | _ => none

/-- `asObject(value)`: keep records. -/
def asObjectJ (v : Option Jsonish) : Option Jsonish :=
  match v with
  | some (.obj fields) => some (.obj fields)
  | _ => none

/-- `normalizeBaseUrl`: strip trailing slashes. -/
def normalizeBaseUrl (url : String) : String :=
  strDropRightWhile url (fun c => c = '/')

/-- `normalizeApiPath`: strip leading and trailing slashes. -/
def normalizeApiPath (path : String) : String :=
  strDropRightWhile (strDropWhile path (fun c => c = '/')) (fun c => c = '/')

/-- Digits-only integer parse used to model `Number.parseInt(value, 10)`
on the digit run after optional sign and leading whitespace; `none`
models `NaN`. -/
def parseIntCore (chars : List Char) : Option Nat :=
  let digits := chars.takeWhile (fun c => c.isDigit)
  if digits.isEmpty then none
  else some (digits.foldl (fun acc c => acc * 10 + (c.toNat - '0'.toNat)) 0)

/-- `Number.parseInt(value || "", 10)` as an optional integer. -/
def parseIntJs (s : String) : Option Int :=
  let chars := (strTrim s).data
  match chars with
  | '-' :: rest => (parseIntCore rest).map (fun n => -(n : Int))
  | '+' :: rest => (parseIntCore rest).map (fun n => (n : Int))
  | _ => (parseIntCore chars).map (fun n => (n : Int))

/-- `positiveIntFromEnv(value, fallback)`: parsed positive integers win,
anything else falls back. -/
def positiveIntFromEnv (value : Option String) (fallback : Nat) : Nat :=
  match parseIntJs (value.getD "") with
  | some parsed => if parsed > 0 then parsed.toNat else fallback
  | none => fallback

/-- `truncate(text, maxLength = 2000)`. -/
def truncateText (text : String) (maxLength : Nat := 2000) : String :=
  if text.length ≤ maxLength then text
  else strTake text maxLength ++ "... [truncated]"

/-- Rendering model for `JSON.stringify(value, null, 2)` (indentation
and separators follow the builtin; string escaping is not modelled). -/
def renderJson : Jsonish → String
  | .str s => "\"" ++ s ++ "\""
  | .num q => toString q
  | .bool b => if b then "true" else "false"
  | .null => "null"
  | .obj fields =>
    let rec renderFields : List (String × Jsonish) → String
      | [] => ""
      | [(k, v)] => "\"" ++ k ++ "\": " ++ renderJson v
      | (k, v) :: rest => "\"" ++ k ++ "\": " ++ renderJson v ++ ",\n" ++ renderFields rest
    match fields with
    | [] => "\x7b\x7d"
    | _ => "\x7b\n" ++ renderFields fields ++ "\n\x7d"
  | .arr items =>
    let rec renderItems : List Jsonish → String
      | [] => ""
      | [v] => renderJson v
      | v :: rest => renderJson v ++ ",\n" ++ renderItems rest
    match items with
    | [] => "[]"
    | _ => "[\n" ++ renderItems items ++ "\n]"

/-- `asJsonText(value)`: strings pass through, everything else is
stringified. -/
def asJsonText (value : Jsonish) : String :=
  match value with
  | .str s => s
  | v => renderJson v

/-- The candidate token field names scanned by `getTokenCandidate`. -/
def tokenKeys : List String :=
  ["access_token", "accessToken", "token", "bearerToken", "jwt", "jwtToken"]

/-- First non-empty string among the given fields of an object. -/
def firstStringField (payload : Jsonish) : List String → Option String
  | [] => none
  | k :: rest =>
    match asStringJ (objGet payload k) with
    | some s => some s
    | none => firstStringField payload rest

/-- `getTokenCandidate(payload)`: scan the known token field names on the
payload, then one level down under a `data` wrapper. -/
def getTokenCandidate (payload : Jsonish) : Option String :=
  if isRecord payload then
    match firstStringField payload tokenKeys with
    | some direct => some direct
    | none =>
      match asObjectJ (objGet payload "data") with
      | some nested => firstStringField nested tokenKeys
      | none => none
  else none

/-- The candidate expiry field names scanned by `getTokenExpirySeconds`. -/
def expiryKeys : List String :=
  ["expiresIn", "expires_in", "expires"]

/-- First strictly positive number among the given fields of an object. -/
def firstPositiveNumberField (payload : Jsonish) : List String → Option Int
  | [] => none
  | k :: rest =>
    match asNumberJ (objGet payload k) with
    | some q => if q > 0 then some q else firstPositiveNumberField payload rest
    | none => firstPositiveNumberField payload rest

/-- `getTokenExpirySeconds(payload)`: a recognised positive expiry field,
directly or one level under `data`, defaulting to 3600 seconds. -/
def getTokenExpirySeconds (payload : Jsonish) : Int :=
  let defaultExpirySeconds : Int := 3600
  if isRecord payload then
    match firstPositiveNumberField payload expiryKeys with
    | some direct => direct
    | none =>
      match asObjectJ (objGet payload "data") with
      | some nested =>
        match firstPositiveNumberField nested expiryKeys with
        | some q => q
        | none => defaultExpirySeconds
      | none => defaultExpirySeconds
  else defaultExpirySeconds


/-! ## Result shaper (`okResult`)

The two result-size maxima are read from `process.env` inside `okResult`
itself, on every call; `ProcessEnv` models the mutable process
environment visible at one point in time. -/

/-- The `process.env` variables the module reads. A value of `none`
models an unset variable. -/
structure ProcessEnv where
  SAVIYNT_BASE_URL : Option String := none
  SAVIYNT_API_PATH : Option String := none
  SAVIYNT_ENABLE_WRITE : Option String := none
  SAVIYNT_SERVICE_USERNAME : Option String := none
  SAVIYNT_USERNAME : Option String := none
  SAVIYNT_SERVICE_PASSWORD : Option String := none
  SAVIYNT_PASSWORD : Option String := none
  SAVIYNT_MAX_RESULT_TEXT_CHARS : Option String := none
  SAVIYNT_MAX_STRUCTURED_CONTENT_CHARS : Option String := none

def DEFAULT_MAX_RESULT_TEXT_CHARS : Nat := 20000
def DEFAULT_MAX_STRUCTURED_CONTENT_CHARS : Nat := 4000

/-- JS `a || b` on optional strings: the left value when truthy
(non-empty), otherwise the right. -/
def orTruthy (a b : Option String) : Option String :=
  match a with
  | some s => if s.length > 0 then some s else b
  | none => b

/-- A `CallToolResult` as produced by `okResult`/`errorResult`: the single
text content item, the optional structured content, the error flag. -/
structure ToolResult where
  text : String
  structuredContent : Option Jsonish
  isError : Bool

/-- Top-level keys of an object value, for `Object.keys(value).slice(0, 50)`. -/
def topKeys (v : Jsonish) : List String :=
  match v with
  | .obj fields => (fields.map (fun e => e.1)).take 50
  | _ => []

/-- `okResult(value)`, reading both maxima from the process environment at
call time (not from server construction). -/
def okResult (env : ProcessEnv) (value : Jsonish) : ToolResult :=
  let maxTextChars :=
    positiveIntFromEnv env.SAVIYNT_MAX_RESULT_TEXT_CHARS DEFAULT_MAX_RESULT_TEXT_CHARS
  let maxStructuredChars :=
    positiveIntFromEnv env.SAVIYNT_MAX_STRUCTURED_CONTENT_CHARS
      DEFAULT_MAX_STRUCTURED_CONTENT_CHARS
  let fullText := asJsonText value
  if fullText.length > maxTextChars then
    let truncatedText :=
      strTake fullText maxTextChars ++ "\n\n" ++
        "... [truncated " ++ toString (fullText.length - maxTextChars) ++
        " chars due to MCP response size limit]"
    { text := truncatedText
      structuredContent := some (.obj
        [("success", .bool true),
         ("truncated", .bool true),
         ("originalChars", .num (fullText.length : Int)),
         ("returnedChars", .num (maxTextChars : Int)),
         ("message", .str "Result was truncated to keep the MCP payload size safe for clients. Add tighter filters/limits.")])
      isError := false }
  else if isRecord value then
    if fullText.length > maxStructuredChars then
      { text := fullText
        structuredContent := some (.obj
          [("success", .bool true),
           ("truncated", .bool true),
           ("originalChars", .num (fullText.length : Int)),
           ("message", .str "structuredContent omitted for large payload. Use text content preview or call with narrower filters."),
           ("keys", .arr ((topKeys value).map Jsonish.str))])
        isError := false }
    else
      { text := fullText, structuredContent := some value, isError := false }
  else
    { text := fullText, structuredContent := none, isError := false }

/-! ## Profile store and token cache -/

/-- Profile provenance: explicit session configuration vs environment. -/
inductive ProfileSource where
  | session
  | env
deriving DecidableEq

/-- `SaviyntProfileState`. -/
structure ProfileState where
  profileId : String
  username : String
  password : String
  baseUrl : String
  source : ProfileSource
  updatedAt : Int
deriving DecidableEq

/-- `SaviyntTokenState`. -/
structure TokenState where
  bearerToken : Option String
  tokenExpiresAt : Option Int
deriving DecidableEq

/-- The mutable core maps: profile store, token cache, active pointer. -/
structure CoreState where
  profiles : List (String × ProfileState)
  tokenCache : List (String × TokenState)
  activeProfileId : Option String
deriving DecidableEq

/-- Server configuration captured once in `createSaviyntMcpServer` from
options and `process.env` (note: the result-size maxima are NOT part of
it; `okResult` reads those from the environment per call). -/
structure ServerConfig where
  defaultBaseUrl : Option String
  defaultApiPath : String
  writesEnabled : Bool
  serviceUsername : Option String
  servicePassword : Option String

def DEFAULT_PROFILE_ID : String := "default"
def ENV_PROFILE_ID : String := "env-default"
def LOGIN_ENDPOINTS : List String := ["/ECM/api/login", "/ECM/api/v1/token"]

/-- The constructor-time configuration reads of `createSaviyntMcpServer`:
default base URL, API path, write flag and service credentials are
captured once from options and the process environment. The result-size
maxima are NOT captured here — `okResult` re-reads them from the
environment on every call. -/
def mkServerConfig (optDefaultBaseUrl : Option String) (optEnableWrites : Option Bool)
    (env : ProcessEnv) : ServerConfig :=
  let defaultBaseUrlRaw :=
    asStringOpt (some ((orTruthy optDefaultBaseUrl
      (orTruthy env.SAVIYNT_BASE_URL (some ""))).getD ""))
  let defaultBaseUrl := defaultBaseUrlRaw.map normalizeBaseUrl
  let defaultApiPath := normalizeApiPath ((asStringOpt env.SAVIYNT_API_PATH).getD "api/v5")
  let writesEnabled :=
    optEnableWrites.getD (env.SAVIYNT_ENABLE_WRITE.map strToLower = some "true")
  let serviceUsername :=
    asStringOpt (some ((orTruthy env.SAVIYNT_SERVICE_USERNAME
      (orTruthy env.SAVIYNT_USERNAME (some ""))).getD ""))
  let servicePassword :=
    asStringOpt (some ((orTruthy env.SAVIYNT_SERVICE_PASSWORD
      (orTruthy env.SAVIYNT_PASSWORD (some ""))).getD ""))
  { defaultBaseUrl := defaultBaseUrl, defaultApiPath := defaultApiPath,
    writesEnabled := writesEnabled, serviceUsername := serviceUsername,
    servicePassword := servicePassword }

/-- `getTokenCacheKey(profileId, baseUrl)`. -/
def getTokenCacheKey (profileId baseUrl : String) : String :=
  profileId ++ "::" ++ normalizeBaseUrl baseUrl

/-- `clearTokenCacheForProfile(profileId)`: drop every cache key owned by
the profile (keys beginning `profileId::`). -/
def clearTokenCacheForProfile (profileId : String) (cache : List (String × TokenState)) :
    List (String × TokenState) :=
  cache.filter (fun e => !(strStartsWith e.1 (profileId ++ "::")))

/-- `clearTokenCacheForProfileBaseUrl(profileId, baseUrl)`. -/
def clearTokenCacheForProfileBaseUrl (profileId baseUrl : String)
    (cache : List (String × TokenState)) : List (String × TokenState) :=
  eraseKey cache (getTokenCacheKey profileId baseUrl)

/-- `upsertProfile(profile, setActive)`: invalidate all the profile's
cached tokens when credentials or base URL changed, store the profile,
optionally make it active. -/
def upsertProfile (now : Int) (profileId username password baseUrl : String)
    (source : ProfileSource) (setActive : Bool) (core : CoreState) :
    CoreState × ProfileState :=
  let existing := lookupKey core.profiles profileId
  let cache :=
    match existing with
    | some ex =>
      if ex.baseUrl ≠ baseUrl ∨ ex.username ≠ username ∨ ex.password ≠ password then
        clearTokenCacheForProfile profileId core.tokenCache
      else core.tokenCache
    | none => core.tokenCache
  let next : ProfileState :=
    { profileId := profileId, username := username, password := password,
      baseUrl := baseUrl, source := source, updatedAt := now }
  let core :=
    { core with
      profiles := setKey core.profiles next.profileId next
      tokenCache := cache
      activeProfileId := if setActive then some next.profileId else core.activeProfileId }
  (core, next)

/-- JS truthiness for an optional string (`undefined` and `""` are falsy). -/
def strTruthy (v : Option String) : Bool :=
  match v with
  | some s => s.length > 0
  | none => false

/-- `ensureAuthFromEnvironment(preferredBaseUrl?)`: materialise the
environment-default profile when service credentials and a base URL are
available; it becomes active only when no active profile is set. -/
def ensureAuthFromEnvironment (cfg : ServerConfig) (now : Int)
    (preferredBaseUrl : Option String) (core : CoreState) :
    CoreState × Option ProfileState :=
  if strTruthy cfg.serviceUsername ∧ strTruthy cfg.servicePassword then
    let envBaseUrl :=
      match asStringOpt preferredBaseUrl with
      | some s => some s
      | none => cfg.defaultBaseUrl
    if strTruthy envBaseUrl then
      let u := (cfg.serviceUsername).getD ""
      let p := (cfg.servicePassword).getD ""
      let b := normalizeBaseUrl (envBaseUrl.getD "")
      let r := upsertProfile now ENV_PROFILE_ID u p b .env core.activeProfileId.isNone core
      (r.1, some r.2)
    else (core, none)
  else (core, none)

/-- `resolveExistingProfile(requestedProfileId?)`: explicit lookup, else
the active profile; a dangling active pointer is reset to null. -/
def resolveExistingProfile (requestedProfileId : Option String) (core : CoreState) :
    CoreState × Option ProfileState :=
  match asStringOpt requestedProfileId with
  | some pid => (core, lookupKey core.profiles pid)
  | none =>
    match core.activeProfileId with
    | some activeId =>
      match lookupKey core.profiles activeId with
      | some p => (core, some p)
      | none => ({ core with activeProfileId := none }, none)
    | none => (core, none)

/-- `ensureLoggedInProfile(requestedProfileId?, preferredBaseUrl?)`: like
`resolveExistingProfile` but falls back to environment materialisation
and throws `LoginRequiredError` when nothing resolves. -/
def ensureLoggedInProfile (cfg : ServerConfig) (now : Int)
    (requestedProfileId preferredBaseUrl : Option String) (core : CoreState) :
    CoreState × Except String ProfileState :=
  match asStringOpt requestedProfileId with
  | some pid =>
    match lookupKey core.profiles pid with
    | some p => (core, .ok p)
    | none =>
      if pid = ENV_PROFILE_ID then
        let e := ensureAuthFromEnvironment cfg now preferredBaseUrl core
        match e.2 with
        | some p => (e.1, .ok p)
        | none => (e.1, .error ("Profile '" ++ pid ++ "' was not found. Call saviynt_upsert_profile or saviynt_login first."))
      else
        (core, .error ("Profile '" ++ pid ++ "' was not found. Call saviynt_upsert_profile or saviynt_login first."))
  | none =>
    let r := resolveExistingProfile none core
    match r.2 with
    | some p => (r.1, .ok p)
    | none =>
      let e := ensureAuthFromEnvironment cfg now preferredBaseUrl r.1
      match e.2 with
      | some p => (e.1, .ok p)
      | none => (e.1, .error "Login required before calling Saviynt tools. Use saviynt_upsert_profile/saviynt_login, or set SAVIYNT_SERVICE_USERNAME and SAVIYNT_SERVICE_PASSWORD.")

/-- `resolveBaseUrl(value?, profile?)`: explicit argument, else the
profile's base URL, else the configured default, else a missing-
configuration error. -/
def resolveBaseUrl (cfg : ServerConfig) (value : Option String)
    (profile : Option ProfileState) : Except String String :=
  match asStringOpt value with
  | some s => .ok (normalizeBaseUrl s)
  | none =>
    match profile with
    | some p =>
      if p.baseUrl.length > 0 then .ok p.baseUrl
      else
        match cfg.defaultBaseUrl with
        | some d => if d.length > 0 then .ok d else .error "Missing Saviynt base URL. Provide `url` in the tool call or set SAVIYNT_BASE_URL."
        | none => .error "Missing Saviynt base URL. Provide `url` in the tool call or set SAVIYNT_BASE_URL."
    | none =>
      match cfg.defaultBaseUrl with
      | some d => if d.length > 0 then .ok d else .error "Missing Saviynt base URL. Provide `url` in the tool call or set SAVIYNT_BASE_URL."
      | none => .error "Missing Saviynt base URL. Provide `url` in the tool call or set SAVIYNT_BASE_URL."

/-- `resolveProfileForRequest(requestedProfileId?, preferredBaseUrl?)`:
explicit lookup (with environment materialisation for the reserved id),
else active profile, else environment materialisation; may be null. -/
def resolveProfileForRequest (cfg : ServerConfig) (now : Int)
    (requestedProfileId preferredBaseUrl : Option String) (core : CoreState) :
    CoreState × Option ProfileState :=
  match asStringOpt requestedProfileId with
  | some pid =>
    match lookupKey core.profiles pid with
    | some p => (core, some p)
    | none =>
      if pid = ENV_PROFILE_ID then ensureAuthFromEnvironment cfg now preferredBaseUrl core
      else (core, none)
  | none =>
    let r := resolveExistingProfile none core
    match r.2 with
    | some p => (r.1, some p)
    | none => ensureAuthFromEnvironment cfg now preferredBaseUrl r.1

/-- `ensureWritesEnabled(toolName)`: error unless the write flag is set. -/
def ensureWritesEnabled (cfg : ServerConfig) (toolName : String) : Except String Unit :=
  if cfg.writesEnabled then .ok ()
  else .error ("Write operations are disabled. Set SAVIYNT_ENABLE_WRITE=true to enable '" ++ toolName ++ "'.")

/-! ## Authenticator (`ensureBearerToken`) -/

/-- An HTTP response as seen after `parseResponseBody`: status, status
text, and the parsed body. -/
structure FetchResponse where
  status : Nat
  statusText : String
  body : Jsonish

/-- `response.ok`: status in the 200–299 range. -/
def respOk (r : FetchResponse) : Bool :=
  decide (200 ≤ r.status) && decide (r.status < 300)

/-- Failure modes of the authenticator and gateway. -/
inductive GatewayError where
  | loginRequired (msg : String)
  | missingBaseUrl
  | authFailed (profileId : String) (attempts : List String)
  | upstream (status : Nat) (statusText : String) (detail : String)
deriving DecidableEq

/-- HTTP methods accepted by the gateway. -/
inductive HttpMethod where
  | GET
  | POST
  | PUT
  | PATCH
  | DELETE
deriving DecidableEq

/-- One upstream (non-login) API call issued by the gateway. -/
structure ApiCall where
  endpoint : String
  method : HttpMethod
  baseUrl : String
deriving DecidableEq

/-- Core state plus the observable network activity: login exchanges
performed and upstream API calls issued. -/
structure RunState where
  core : CoreState
  loginCalls : List (String × Jsonish)
  apiCalls : List ApiCall

/-- The first login payload shape: plain username/password. -/
def payloadPlain (username password : String) : Jsonish :=
  .obj [("username", .str username), ("password", .str password)]

/-- The second login payload shape: username/password plus grant type. -/
def payloadGrant (username password : String) : Jsonish :=
  .obj [("username", .str username), ("password", .str password),
        ("grant_type", .str "password")]

/-- The ordered login attempts: each candidate endpoint, and within it
each candidate payload shape. -/
def loginAttempts (username password : String) : List (String × Jsonish) :=
  LOGIN_ENDPOINTS.foldr
    (fun e acc => (e, payloadPlain username password) :: (e, payloadGrant username password) :: acc)
    []

/-- The attempt-record entry pushed for one failed login attempt. -/
def attemptMsg (loginFetch : String → Jsonish → FetchResponse)
    (a : String × Jsonish) : String :=
  let r := loginFetch a.1 a.2
  if respOk r then a.1 ++ " -> success response but no token field"
  else a.1 ++ " -> " ++ toString r.status ++ " " ++ r.statusText

/-- The token yielded by one attempt, if it both succeeded and carried a
recognisable token field. -/
def attemptToken (loginFetch : String → Jsonish → FetchResponse)
    (a : String × Jsonish) : Option String :=
  let r := loginFetch a.1 a.2
  if respOk r then getTokenCandidate r.body else none

/-- The login loop of `ensureBearerToken`: try the attempts in order,
logging every call made, stopping at the first success-with-token,
otherwise accumulating the attempt record. -/
def tryLoginGo (loginFetch : String → Jsonish → FetchResponse) :
    List (String × Jsonish) → List String → List (String × Jsonish) →
    List (String × Jsonish) × Except (List String) (String × Jsonish)
  | [], attempts, calls => (calls, .error attempts)
  | a :: rest, attempts, calls =>
    let r := loginFetch a.1 a.2
    let calls := calls ++ [a]
    if respOk r then
      match getTokenCandidate r.body with
      | some token => (calls, .ok (token, r.body))
      | none =>
        tryLoginGo loginFetch rest
          (attempts ++ [a.1 ++ " -> success response but no token field"]) calls
    else
      tryLoginGo loginFetch rest
        (attempts ++ [a.1 ++ " -> " ++ toString r.status ++ " " ++ r.statusText]) calls

/-- The refresh horizon stored with a fresh token: the early-renewal
margin `Math.max(30, Math.floor(expiresInSeconds * 0.92))` in seconds;
for an integral lifetime `e`, `Math.floor(e * 0.92)` is exactly
`⌊92 * e / 100⌋` (floor division). -/
def refreshSeconds (expiresInSeconds : Int) : Int :=
  max 30 (Int.fdiv (expiresInSeconds * 92) 100)

/-- The cache-expiry cleanup inside `ensureBearerToken`: when serving
from cache was considered (no forced refresh) and the cached entry had
both fields but was not served, the stale key is deleted. -/
def dropExpiredEntry (forceRefresh : Bool) (cached : Option TokenState)
    (cacheKey : String) (core : CoreState) : CoreState :=
  if forceRefresh then core
  else
    match cached with
    | some t =>
      match t.bearerToken, t.tokenExpiresAt with
      | some _, some _ => { core with tokenCache := eraseKey core.tokenCache cacheKey }
      | _, _ => core
    | none => core

/-- The body of `ensureBearerToken` over the core maps alone, returning
the new core state, the login exchanges performed, and the outcome. -/
def ensureBearerTokenCore (cfg : ServerConfig)
    (loginFetch : String → Jsonish → FetchResponse) (now : Int)
    (forceRefresh : Bool) (requestedProfileId preferredBaseUrl : Option String)
    (core₀ : CoreState) :
    CoreState × List (String × Jsonish) × Except GatewayError String :=
  let r := ensureLoggedInProfile cfg now requestedProfileId preferredBaseUrl core₀
  match r.2 with
  | .error msg => (r.1, [], .error (.loginRequired msg))
  | .ok profile =>
    match resolveBaseUrl cfg preferredBaseUrl (some profile) with
    | .error _ => (r.1, [], .error .missingBaseUrl)
    | .ok baseUrl =>
      let cacheKey := getTokenCacheKey profile.profileId baseUrl
      let cached := lookupKey r.1.tokenCache cacheKey
      let cachedHit : Option String :=
        if forceRefresh then none
        else
          match cached with
          | some t =>
            match t.bearerToken, t.tokenExpiresAt with
            | some bearer, some expiresAt => if now < expiresAt then some bearer else none
            | _, _ => none
          | none => none
      match cachedHit with
      | some bearer => (r.1, [], .ok bearer)
      | none =>
        let core := dropExpiredEntry forceRefresh cached cacheKey r.1
        let lres :=
          tryLoginGo loginFetch (loginAttempts profile.username profile.password) [] []
        match lres.2 with
        | .error attempts => (core, lres.1, .error (.authFailed profile.profileId attempts))
        | .ok (token, body) =>
          let expiresInSeconds := getTokenExpirySeconds body
          let entry : TokenState :=
            { bearerToken := some token,
              tokenExpiresAt := some (now + refreshSeconds expiresInSeconds * 1000) }
          ({ core with
              tokenCache := setKey core.tokenCache cacheKey entry
              activeProfileId := some profile.profileId }, lres.1, .ok token)

theorem dropExpiredEntry_profiles (forceRefresh : Bool) (cached : Option TokenState)
    (cacheKey : String) (core : CoreState) :
    (dropExpiredEntry forceRefresh cached cacheKey core).profiles = core.profiles := by
  unfold dropExpiredEntry
  repeat' split
  all_goals rfl

theorem dropExpiredEntry_active (forceRefresh : Bool) (cached : Option TokenState)
    (cacheKey : String) (core : CoreState) :
    (dropExpiredEntry forceRefresh cached cacheKey core).activeProfileId =
      core.activeProfileId := by
  unfold dropExpiredEntry
  repeat' split
  all_goals rfl

/-- `ensureBearerToken(forceRefresh, requestedProfileId?, preferredBaseUrl?)`:
serve a cached unexpired token, else run the login fallback chain and
cache the result with the early-renewal expiry, marking the profile
active. The `RunState` wrapper also logs the login exchanges made. -/
def ensureBearerToken (cfg : ServerConfig)
    (loginFetch : String → Jsonish → FetchResponse) (now : Int)
    (forceRefresh : Bool) (requestedProfileId preferredBaseUrl : Option String)
    (st : RunState) : RunState × Except GatewayError String :=
  let r := ensureBearerTokenCore cfg loginFetch now forceRefresh requestedProfileId
    preferredBaseUrl st.core
  ({ core := r.1, loginCalls := st.loginCalls ++ r.2.1, apiCalls := st.apiCalls }, r.2.2)

/-! ## API gateway (`callSaviyntApi`) -/

/-- `ApiRequestOptions`. -/
structure ApiRequestOptions where
  endpoint : String
  method : Option HttpMethod := none
  query : Option Jsonish := none
  body : Option Jsonish := none
  baseUrl : Option String := none
  profileId : Option String := none
  requiresAuth : Option Bool := none
  retryOnUnauthorized : Option Bool := none

/-- Outcome of one pass through the body of `callSaviyntApi`: a parsed
body, an error, or the decision to retry once after the forced
re-login (carrying the effective profile id and base URL threaded into
the recursive call). -/
inductive StepOutcome where
  | ok (body : Jsonish)
  | err (e : GatewayError)
  | retry (profileId : Option String) (baseUrl : String)

/-- The gateway's environment: configuration, the login fetch oracle,
the upstream fetch oracle (indexed by how many upstream calls have been
made so far), and the clock. -/
structure GatewayCtx where
  cfg : ServerConfig
  loginFetch : String → Jsonish → FetchResponse
  apiFetch : Nat → FetchResponse

/-- The `parsedBody`-to-text conversion used for upstream error details. -/
def upstreamDetail (body : Jsonish) : String :=
  match body with
  | .str s => s
  | b => asJsonText b

/-- The fetch-and-handle tail of `callSaviyntApi`, after profile, base
URL and (when required) token resolution: issue the upstream call; on a
401 with retry still allowed, invalidate the cached token, force a
fresh login and signal the single retry; otherwise surface the parsed
body or an `UpstreamError`. -/
def apiFetchStep (gc : GatewayCtx) (now : Int) (retryOn requiresAuth : Bool)
    (profile : Option ProfileState) (baseUrl : String)
    (opts : ApiRequestOptions) (st : RunState) : RunState × StepOutcome :=
  let method := opts.method.getD .GET
  let response := gc.apiFetch st.apiCalls.length
  let st := { st with apiCalls := st.apiCalls ++ [⟨opts.endpoint, method, baseUrl⟩] }
  if response.status = 401 ∧ retryOn ∧ requiresAuth then
    let coreCleared :=
      match profile with
      | some p =>
        { st.core with
          tokenCache := clearTokenCacheForProfileBaseUrl p.profileId baseUrl st.core.tokenCache }
      | none => st.core
    let r := ensureBearerToken gc.cfg gc.loginFetch now true
      (profile.map (fun p => p.profileId)) (some baseUrl) { st with core := coreCleared }
    (r.1,
      match r.2 with
      | .error e => .err e
      | .ok _ => .retry (profile.map (fun p => p.profileId)) baseUrl)
  else
    if respOk response then (st, .ok response.body)
    else
      (st, .err (.upstream response.status response.statusText
        (truncateText (upstreamDetail response.body))))

/-- The profile- and base-URL-resolution head of `callSaviyntApi`:
requested profile id (explicit argument, else ambient context), profile
resolution (strict when auth is required), the explicit-id/no-profile
check, and base URL resolution. -/
def resolveCallTargetCore (cfg : ServerConfig) (now : Int) (ctxProfileId : Option String)
    (opts : ApiRequestOptions) (core₀ : CoreState) :
    CoreState × Except GatewayError (Option ProfileState × String) :=
  let requestedProfileId :=
    match asStringOpt opts.profileId with
    | some pid => some pid
    | none => ctxProfileId
  let requiresAuth := opts.requiresAuth.getD true
  let resolved : CoreState × Except String (Option ProfileState) :=
    if requiresAuth then
      let r := ensureLoggedInProfile cfg now requestedProfileId opts.baseUrl core₀
      match r.2 with
      | .ok p => (r.1, .ok (some p))
      | .error msg => (r.1, .error msg)
    else
      let r := resolveProfileForRequest cfg now requestedProfileId opts.baseUrl core₀
      (r.1, .ok r.2)
  match resolved.2 with
  | .error msg => (resolved.1, .error (.loginRequired msg))
  | .ok profile =>
    if requestedProfileId.isSome ∧ profile.isNone then
      (resolved.1, .error (.loginRequired ("Profile '" ++ requestedProfileId.getD "" ++ "' was not found. Call saviynt_upsert_profile or saviynt_login first.")))
    else
      match resolveBaseUrl cfg opts.baseUrl profile with
      | .error _ => (resolved.1, .error .missingBaseUrl)
      | .ok baseUrl => (resolved.1, .ok (profile, baseUrl))

/-- The resolution head over the full run state. -/
def resolveCallTarget (gc : GatewayCtx) (now : Int) (ctxProfileId : Option String)
    (opts : ApiRequestOptions) (st : RunState) :
    RunState × Except GatewayError (Option ProfileState × String) :=
  let r := resolveCallTargetCore gc.cfg now ctxProfileId opts st.core
  ({ core := r.1, loginCalls := st.loginCalls, apiCalls := st.apiCalls }, r.2)

/-- One pass through the body of `callSaviyntApi` with the effective
`retryOnUnauthorized` value `retryOn`. -/
def callSaviyntApiStep (gc : GatewayCtx) (now : Int) (ctxProfileId : Option String)
    (retryOn : Bool) (opts : ApiRequestOptions) (st : RunState) : RunState × StepOutcome :=
  let requiresAuth := opts.requiresAuth.getD true
  let r := resolveCallTarget gc now ctxProfileId opts st
  match r.2 with
  | .error e => (r.1, .err e)
  | .ok (profile, baseUrl) =>
    if requiresAuth then
      let t := ensureBearerToken gc.cfg gc.loginFetch now false
        (profile.map (fun p => p.profileId)) (some baseUrl) r.1
      match t.2 with
      | .error e => (t.1, .err e)
      | .ok _token =>
        apiFetchStep gc now retryOn requiresAuth profile baseUrl opts t.1
    else
      apiFetchStep gc now retryOn requiresAuth profile baseUrl opts r.1

/-- `callSaviyntApi(opts)`: run the body once; when it signals the
unauthorized retry, run it once more with `retryOnUnauthorized` forced
false, the resolved base URL and the resolved profile id. The second
pass cannot signal a retry again (`callSaviyntApiStep_false_no_retry`),
so the fallback arm is unreachable. -/
def callSaviyntApi (gc : GatewayCtx) (now : Int) (ctxProfileId : Option String)
    (opts : ApiRequestOptions) (st : RunState) : RunState × Except GatewayError Jsonish :=
  match callSaviyntApiStep gc now ctxProfileId (opts.retryOnUnauthorized.getD true) opts st with
  | (st, .ok body) => (st, .ok body)
  | (st, .err e) => (st, .error e)
  | (st, .retry profileId baseUrl) =>
    let retryOpts :=
      { opts with
        baseUrl := some baseUrl
        profileId := profileId
        retryOnUnauthorized := some false }
    match callSaviyntApiStep gc now ctxProfileId false retryOpts st with
    | (st, .ok body) => (st, .ok body)
    | (st, .err e) => (st, .error e)
    | (st, .retry _ _) => (st, .error (.upstream 401 "Unauthorized" ""))

/-! ## Tool handlers -/

/-- Failure modes of a tool handler before/around the gateway. -/
inductive ToolError where
  | validation (msg : String)
  | writeDisabled (msg : String)
  | gateway (e : GatewayError)
deriving DecidableEq

/-- The write-classified HTTP methods. -/
def WRITE_METHODS : List HttpMethod := [.POST, .PUT, .PATCH, .DELETE]

/-- Method-string parsing for `raw_request`'s uppercase method check. -/
def parseMethod (s : String) : Option HttpMethod :=
  if s = "GET" then some .GET
  else if s = "POST" then some .POST
  else if s = "PUT" then some .PUT
  else if s = "PATCH" then some .PATCH
  else if s = "DELETE" then some .DELETE
  else none

/-- Substring test modelling `String.prototype.includes`. -/
def containsSub (s sub : String) : Bool :=
  (List.range (s.length + 1)).any (fun i => strStartsWith (strDrop s i) sub)

/-- `resolveApiPath(value?)`. -/
def resolveApiPath (cfg : ServerConfig) (value : Option String) : String :=
  normalizeApiPath ((asStringOpt value).getD cfg.defaultApiPath)

/-- Arguments of the typed v5 write wrappers. -/
structure V5Args where
  payload : Option Jsonish := none
  params : Option Jsonish := none
  apiPath : Option String := none
  url : Option String := none

/-- `runV5WriteTool(toolName, method, operationPath, args)`: write gate
first, then the authenticated gateway call on the composed endpoint. -/
def runV5WriteTool (gc : GatewayCtx) (now : Int) (ctxProfileId : Option String)
    (toolName : String) (method : HttpMethod) (operationPath : String)
    (args : V5Args) (st : RunState) : RunState × Except ToolError Jsonish :=
  match ensureWritesEnabled gc.cfg toolName with
  | .error msg => (st, .error (.writeDisabled msg))
  | .ok _ =>
    let apiPath := resolveApiPath gc.cfg args.apiPath
    let endpoint := "/ECM/" ++ apiPath ++ "/" ++ operationPath
    match callSaviyntApi gc now ctxProfileId
        { endpoint := endpoint, method := some method,
          query := asObjectJ args.params, body := asObjectJ args.payload,
          baseUrl := asStringOpt args.url, requiresAuth := some true } st with
    | (st, .ok r) => (st, .ok r)
    | (st, .error e) => (st, .error (.gateway e))

/-- Arguments of `saviynt_approve_request` / `saviynt_reject_request`. -/
structure RequestDecisionArgs where
  requestId : Option String := none
  comments : Option String := none

/-- `saviynt_approve_request` handler: write gate, then the approval call. -/
def approveRequestHandler (gc : GatewayCtx) (now : Int) (ctxProfileId : Option String)
    (args : RequestDecisionArgs) (st : RunState) : RunState × Except ToolError Jsonish :=
  match ensureWritesEnabled gc.cfg "saviynt_approve_request" with
  | .error msg => (st, .error (.writeDisabled msg))
  | .ok _ =>
    match asStringOpt args.requestId with
    | none => (st, .error (.validation "Missing required argument: requestId"))
    | some requestId =>
      match callSaviyntApi gc now ctxProfileId
          { endpoint := "/ECM/api/approveAccessRequest", method := some .POST,
            body := some (.obj [("requestId", .str requestId)]) } st with
      | (st, .ok r) => (st, .ok r)
      | (st, .error e) => (st, .error (.gateway e))

/-- `saviynt_reject_request` handler. -/
def rejectRequestHandler (gc : GatewayCtx) (now : Int) (ctxProfileId : Option String)
    (args : RequestDecisionArgs) (st : RunState) : RunState × Except ToolError Jsonish :=
  match ensureWritesEnabled gc.cfg "saviynt_reject_request" with
  | .error msg => (st, .error (.writeDisabled msg))
  | .ok _ =>
    match asStringOpt args.requestId with
    | none => (st, .error (.validation "Missing required argument: requestId"))
    | some requestId =>
      match callSaviyntApi gc now ctxProfileId
          { endpoint := "/ECM/api/rejectAccessRequest", method := some .POST,
            body := some (.obj [("requestId", .str requestId)]) } st with
      | (st, .ok r) => (st, .ok r)
      | (st, .error e) => (st, .error (.gateway e))

/-- Arguments of `saviynt_revoke_access`. -/
structure RevokeAccessArgs where
  accountId : Option String := none
  reason : Option String := none

/-- `saviynt_revoke_access` handler. -/
def revokeAccessHandler (gc : GatewayCtx) (now : Int) (ctxProfileId : Option String)
    (args : RevokeAccessArgs) (st : RunState) : RunState × Except ToolError Jsonish :=
  match ensureWritesEnabled gc.cfg "saviynt_revoke_access" with
  | .error msg => (st, .error (.writeDisabled msg))
  | .ok _ =>
    match asStringOpt args.accountId with
    | none => (st, .error (.validation "Missing required argument: accountId"))
    | some accountId =>
      match callSaviyntApi gc now ctxProfileId
          { endpoint := "/ECM/api/revokeAccessRequest", method := some .POST,
            body := some (.obj [("accountId", .str accountId)]) } st with
      | (st, .ok r) => (st, .ok r)
      | (st, .error e) => (st, .error (.gateway e))

/-- Arguments of the generic resource write tools and `raw_request`. -/
structure ResourceArgs where
  endpoint : Option String := none
  method : Option String := none
  params : Option Jsonish := none
  body : Option Jsonish := none
  url : Option String := none
  profileId : Option String := none

/-- `saviynt_create_resource` handler: write gate, endpoint check, POST. -/
def createResourceHandler (gc : GatewayCtx) (now : Int) (ctxProfileId : Option String)
    (args : ResourceArgs) (st : RunState) : RunState × Except ToolError Jsonish :=
  match ensureWritesEnabled gc.cfg "saviynt_create_resource" with
  | .error msg => (st, .error (.writeDisabled msg))
  | .ok _ =>
    match asStringOpt args.endpoint with
    | none => (st, .error (.validation "Missing required argument: endpoint"))
    | some endpoint =>
      match callSaviyntApi gc now ctxProfileId
          { endpoint := endpoint, method := some .POST,
            query := asObjectJ args.params, body := asObjectJ args.body,
            baseUrl := asStringOpt args.url, requiresAuth := some true } st with
      | (st, .ok r) => (st, .ok r)
      | (st, .error e) => (st, .error (.gateway e))

/-- `saviynt_modify_resource` handler: write gate, endpoint check,
PATCH/PUT/POST with PATCH default. -/
def modifyResourceHandler (gc : GatewayCtx) (now : Int) (ctxProfileId : Option String)
    (args : ResourceArgs) (st : RunState) : RunState × Except ToolError Jsonish :=
  match ensureWritesEnabled gc.cfg "saviynt_modify_resource" with
  | .error msg => (st, .error (.writeDisabled msg))
  | .ok _ =>
    match asStringOpt args.endpoint with
    | none => (st, .error (.validation "Missing required argument: endpoint"))
    | some endpoint =>
      let methodRaw := (asStringOpt args.method).map strToUpper
      let method : HttpMethod :=
        match methodRaw with
        | some "PUT" => .PUT
        | some "PATCH" => .PATCH
        | some "POST" => .POST
        | _ => .PATCH
      match callSaviyntApi gc now ctxProfileId
          { endpoint := endpoint, method := some method,
            query := asObjectJ args.params, body := asObjectJ args.body,
            baseUrl := asStringOpt args.url, requiresAuth := some true } st with
      | (st, .ok r) => (st, .ok r)
      | (st, .error e) => (st, .error (.gateway e))

/-- `saviynt_delete_resource` handler: write gate, endpoint check,
DELETE (or POST when requested). -/
def deleteResourceHandler (gc : GatewayCtx) (now : Int) (ctxProfileId : Option String)
    (args : ResourceArgs) (st : RunState) : RunState × Except ToolError Jsonish :=
  match ensureWritesEnabled gc.cfg "saviynt_delete_resource" with
  | .error msg => (st, .error (.writeDisabled msg))
  | .ok _ =>
    match asStringOpt args.endpoint with
    | none => (st, .error (.validation "Missing required argument: endpoint"))
    | some endpoint =>
      let methodRaw := (asStringOpt args.method).map strToUpper
      let method : HttpMethod := if methodRaw = some "POST" then .POST else .DELETE
      match callSaviyntApi gc now ctxProfileId
          { endpoint := endpoint, method := some method,
            query := asObjectJ args.params, body := asObjectJ args.body,
            baseUrl := asStringOpt args.url, requiresAuth := some true } st with
      | (st, .ok r) => (st, .ok r)
      | (st, .error e) => (st, .error (.gateway e))

/-- `raw_request` handler: endpoint check, method normalisation, write
gate for write-classified methods, auth skipped for login/token paths. -/
def rawRequestHandler (gc : GatewayCtx) (now : Int) (ctxProfileId : Option String)
    (args : ResourceArgs) (st : RunState) : RunState × Except ToolError Jsonish :=
  match asStringOpt args.endpoint with
  | none => (st, .error (.validation "Missing required argument: endpoint"))
  | some endpoint =>
    let methodRaw := ((asStringOpt args.method).map strToUpper).getD "GET"
    let method := (parseMethod methodRaw).getD .GET
    let writeGate : Except String Unit :=
      if WRITE_METHODS.contains method then ensureWritesEnabled gc.cfg "raw_request"
      else .ok ()
    match writeGate with
    | .error msg => (st, .error (.writeDisabled msg))
    | .ok _ =>
      let endpointLower := strToLower endpoint
      let authOptionalPath :=
        containsSub endpointLower "/login" || containsSub endpointLower "/token"
      let requiresAuth := !authOptionalPath
      match callSaviyntApi gc now ctxProfileId
          { endpoint := endpoint, method := some method,
            query := asObjectJ args.params, body := asObjectJ args.body,
            baseUrl := asStringOpt args.url, profileId := asStringOpt args.profileId,
            requiresAuth := some requiresAuth } st with
      | (st, .ok r) => (st, .ok r)
      | (st, .error e) => (st, .error (.gateway e))

/-- `saviynt_delete_profile` handler: remove the profile and its cached
tokens; when it was active, clear the pointer and try environment
re-materialisation. The success value is the final active pointer. -/
def deleteProfileHandler (cfg : ServerConfig) (now : Int)
    (argProfileId : Option String) (core : CoreState) :
    CoreState × Except String (Option String) :=
  match asStringOpt argProfileId with
  | none => (core, .error "Missing required argument: profileId")
  | some profileId =>
    if hasKey core.profiles profileId then
      let core :=
        { core with
          profiles := eraseKey core.profiles profileId
          tokenCache := clearTokenCacheForProfile profileId core.tokenCache }
      let core :=
        if core.activeProfileId = some profileId then
          let core := { core with activeProfileId := none }
          (ensureAuthFromEnvironment cfg now none core).1
        else core
      (core, .ok core.activeProfileId)
    else
      (core, .error ("Profile '" ++ profileId ++ "' does not exist."))

/-- `saviynt_set_active_profile` handler. -/
def setActiveProfileHandler (cfg : ServerConfig) (now : Int)
    (argProfileId : Option String) (core : CoreState) :
    CoreState × Except String String :=
  match asStringOpt argProfileId with
  | none => (core, .error "Missing required argument: profileId")
  | some profileId =>
    let resolved : CoreState × Option ProfileState :=
      match lookupKey core.profiles profileId with
      | some p => (core, some p)
      | none =>
        if profileId = ENV_PROFILE_ID then ensureAuthFromEnvironment cfg now none core
        else (core, none)
    match resolved.2 with
    | some profile =>
      ({ resolved.1 with activeProfileId := some profile.profileId }, .ok profile.profileId)
    | none =>
      (resolved.1, .error ("Profile '" ++ profileId ++ "' does not exist. Call saviynt_upsert_profile or saviynt_login first."))

/-- The state transition of `profileStatusHandler` (list/status tools):
opportunistic environment materialisation, then re-pointing the active
pointer at the profile the summary reports as active. -/
def profileStatusHandlerState (cfg : ServerConfig) (now : Int) (core : CoreState) : CoreState :=
  let core := (ensureAuthFromEnvironment cfg now none core).1
  if core.profiles.isEmpty then core
  else
    let fromActive :=
      match core.activeProfileId with
      | some a => lookupKey core.profiles a
      | none => none
    let activeProfile :=
      match fromActive with
      | some p => some p
      | none => lookupKey core.profiles ENV_PROFILE_ID
    match activeProfile with
    | some p =>
      if core.activeProfileId = some p.profileId then core
      else { core with activeProfileId := some p.profileId }
    | none => core

/-- Arguments of `saviynt_login` / `login`. -/
structure LoginArgs where
  username : Option String := none
  password : Option String := none
  url : Option String := none
  profileId : Option String := none
  setActive : Option Bool := none

/-- `loginHandler`: upsert the profile from the arguments and force a
fresh authentication for it. -/
def loginHandler (gc : GatewayCtx) (now : Int) (args : LoginArgs) (st : RunState) :
    RunState × Except ToolError String :=
  match asStringOpt args.username, asStringOpt args.password with
  | some username, some password =>
    let requestedProfileId :=
      ((asStringOpt args.profileId).orElse (fun _ => st.core.activeProfileId)).getD
        DEFAULT_PROFILE_ID
    let setActive := args.setActive.getD true
    let providedUrl := asStringOpt args.url
    let existingProfile := lookupKey st.core.profiles requestedProfileId
    let urlSource :=
      ((providedUrl.orElse (fun _ => existingProfile.map (fun p => p.baseUrl))).orElse
        (fun _ => gc.cfg.defaultBaseUrl)).getD ""
    let resolvedBaseUrl := normalizeBaseUrl urlSource
    if resolvedBaseUrl.length = 0 then
      (st, .error (.validation "Missing Saviynt base URL. Provide 'url' or set SAVIYNT_BASE_URL in the environment."))
    else
      let r :=
        upsertProfile now requestedProfileId username password resolvedBaseUrl .session
          setActive st.core
      let t := ensureBearerToken gc.cfg gc.loginFetch now true (some r.2.profileId)
        (some r.2.baseUrl) { st with core := r.1 }
      match t.2 with
      | .ok token => (t.1, .ok token)
      | .error e => (t.1, .error (.gateway e))
  | _, _ => (st, .error (.validation "Both 'username' and 'password' are required."))

/-- Arguments of `saviynt_upsert_profile`. -/
structure UpsertProfileArgs where
  profileId : Option String := none
  username : Option String := none
  password : Option String := none
  url : Option String := none
  setActive : Option Bool := none
  authenticate : Option Bool := none

/-- `saviynt_upsert_profile` handler: upsert, then authenticate now or
drop the stale cached token for the profile's base URL. -/
def upsertProfileHandler (gc : GatewayCtx) (now : Int) (args : UpsertProfileArgs)
    (st : RunState) : RunState × Except ToolError String :=
  let profileId :=
    ((asStringOpt args.profileId).orElse (fun _ => st.core.activeProfileId)).getD
      DEFAULT_PROFILE_ID
  match asStringOpt args.username, asStringOpt args.password, asStringOpt args.url with
  | some username, some password, some url =>
    let setActive := args.setActive.getD true
    let authenticate := args.authenticate.getD true
    let r :=
      upsertProfile now profileId username password (normalizeBaseUrl url) .session
        setActive st.core
    if authenticate then
      let t := ensureBearerToken gc.cfg gc.loginFetch now true (some r.2.profileId)
        (some r.2.baseUrl) { st with core := r.1 }
      match t.2 with
      | .ok token => (t.1, .ok token)
      | .error e => (t.1, .error (.gateway e))
    else
      ({ st with core :=
          { r.1 with
            tokenCache :=
              clearTokenCacheForProfileBaseUrl r.2.profileId r.2.baseUrl
                r.1.tokenCache } }, .ok "")
  | _, _, _ => (st, .error (.validation "Arguments 'username', 'password', and 'url' are required."))

/-! ## Association-list and string lemmas -/

theorem lookupKey_filter_false {α : Type} (m : List (String × α)) (k : String)
    (q : String × α → Bool) (h : ∀ v, q (k, v) = false) :
    lookupKey (m.filter q) k = none := by
  induction m with
  | nil => rfl
  | cons e rest ih =>
    rw [List.filter_cons]
    by_cases hq : q e = true
    · rw [if_pos hq]
      have hk : e.1 ≠ k := by
        intro hk
        have he : e = (k, e.2) := by
          obtain ⟨e1, e2⟩ := e
          simp only at hk
          rw [hk]
        rw [he, h e.2] at hq
        exact Bool.noConfusion hq
      simpa [lookupKey, hk] using ih
    · rw [if_neg hq]
      exact ih

theorem lookupKey_filter_of_none {α : Type} (m : List (String × α)) (k : String)
    (q : String × α → Bool) (h : lookupKey m k = none) :
    lookupKey (m.filter q) k = none := by
  induction m with
  | nil => rfl
  | cons e rest ih =>
    simp only [lookupKey] at h
    by_cases hk : e.1 = k
    · rw [if_pos hk] at h
      exact Option.noConfusion h
    · rw [if_neg hk] at h
      rw [List.filter_cons]
      by_cases hq : q e = true
      · rw [if_pos hq]
        simpa [lookupKey, hk] using ih h
      · rw [if_neg hq]
        exact ih h

theorem lookupKey_eraseKey {α : Type} (m : List (String × α)) (k k' : String) :
    lookupKey (eraseKey m k) k' = if k' = k then none else lookupKey m k' := by
  by_cases hk : k' = k
  · rw [if_pos hk, hk]
    apply lookupKey_filter_false
    intro v
    simp
  · rw [if_neg hk]
    induction m with
    | nil => rfl
    | cons e rest ih =>
      rw [eraseKey, List.filter_cons]
      rw [eraseKey] at ih
      by_cases he : e.1 = k
      · rw [if_neg (by simp [he])]
        have hek : e.1 ≠ k' := by
          rw [he]
          intro hkk
          exact hk hkk.symm
        simpa [lookupKey, hek] using ih
      · rw [if_pos (by simp [he])]
        by_cases hek : e.1 = k'
        · simp [lookupKey, hek]
        · simpa [lookupKey, hek] using ih

theorem lookupKey_setKey {α : Type} (m : List (String × α)) (k k' : String) (v : α) :
    lookupKey (setKey m k v) k' = if k = k' then some v else lookupKey m k' := by
  by_cases hk : k = k'
  · simp [setKey, lookupKey, hk]
  · have hk' : k' ≠ k := fun h => hk h.symm
    simp only [setKey, lookupKey, hk, if_false, if_neg hk]
    rw [lookupKey_eraseKey, if_neg hk']

theorem strStartsWith_append_self (a b : String) :
    strStartsWith (a ++ b) a = true := by
  obtain ⟨ad⟩ := a
  obtain ⟨bd⟩ := b
  show List.isPrefixOf ad (ad ++ bd) = true
  induction ad with
  | nil => simp [List.isPrefixOf]
  | cons c cs ih => simp [List.isPrefixOf, ih]

theorem strStartsWith_key (a b c : String) :
    strStartsWith (a ++ (b ++ c)) (a ++ b) = true := by
  have : a ++ (b ++ c) = (a ++ b) ++ c := by
    obtain ⟨ad⟩ := a
    obtain ⟨bd⟩ := b
    obtain ⟨cd⟩ := c
    show String.mk (ad ++ (bd ++ cd)) = String.mk ((ad ++ bd) ++ cd)
    rw [List.append_assoc]
  rw [this]
  exact strStartsWith_append_self (a ++ b) c

/-- Every token-cache key of a profile is removed by
`clearTokenCacheForProfile`. -/
theorem lookupKey_clearTokenCacheForProfile (profileId : String)
    (cache : List (String × TokenState)) (baseUrl : String) :
    lookupKey (clearTokenCacheForProfile profileId cache)
      (getTokenCacheKey profileId baseUrl) = none := by
  apply lookupKey_filter_false
  intro v
  have : strStartsWith (getTokenCacheKey profileId baseUrl) (profileId ++ "::") = true := by
    show strStartsWith (profileId ++ "::" ++ normalizeBaseUrl baseUrl)
      (profileId ++ "::") = true
    have h := strStartsWith_key profileId "::" (normalizeBaseUrl baseUrl)
    simpa [String.append_assoc] using h
  simp [this]

/-! ## Gateway structure lemmas -/

/-- Classifier for the retry outcome. -/
def isRetry : StepOutcome → Bool
  | .retry _ _ => true
  | _ => false

/-- `ensureBearerToken` performs no upstream API calls: the `apiCalls`
log is untouched (only `loginCalls` can grow). -/
theorem ensureBearerToken_apiCalls (cfg : ServerConfig)
    (loginFetch : String → Jsonish → FetchResponse) (now : Int)
    (forceRefresh : Bool) (requestedProfileId preferredBaseUrl : Option String)
    (st : RunState) :
    (ensureBearerToken cfg loginFetch now forceRefresh requestedProfileId
      preferredBaseUrl st).1.apiCalls = st.apiCalls := rfl

/-- With `retryOn = false` the fetch-and-handle tail never signals a
retry. -/
theorem apiFetchStep_false_no_retry (gc : GatewayCtx) (now : Int)
    (requiresAuth : Bool) (profile : Option ProfileState) (baseUrl : String)
    (opts : ApiRequestOptions) (st : RunState) :
    isRetry (apiFetchStep gc now false requiresAuth profile baseUrl opts st).2 = false := by
  unfold apiFetchStep
  rw [if_neg (by simp)]
  split
  · rfl
  · rfl

/-- The fetch-and-handle tail issues exactly one upstream call. -/
theorem apiFetchStep_apiCalls (gc : GatewayCtx) (now : Int)
    (retryOn requiresAuth : Bool) (profile : Option ProfileState) (baseUrl : String)
    (opts : ApiRequestOptions) (st : RunState) :
    (apiFetchStep gc now retryOn requiresAuth profile baseUrl opts st).1.apiCalls.length =
      st.apiCalls.length + 1 := by
  unfold apiFetchStep
  dsimp only
  repeat' split
  all_goals simp [ensureBearerToken_apiCalls]

/-- With `retryOn = false` a pass through the gateway body never signals
a retry: there is no second retry. -/
theorem callSaviyntApiStep_false_no_retry (gc : GatewayCtx) (now : Int)
    (ctxProfileId : Option String) (opts : ApiRequestOptions) (st : RunState) :
    isRetry (callSaviyntApiStep gc now ctxProfileId false opts st).2 = false := by
  unfold callSaviyntApiStep
  dsimp only
  split
  · rfl
  · split
    · split
      · rfl
      · exact apiFetchStep_false_no_retry ..
    · exact apiFetchStep_false_no_retry ..

/-- `resolveCallTarget` makes no network calls: the full network log is
untouched. -/
theorem resolveCallTarget_apiCalls (gc : GatewayCtx) (now : Int)
    (ctxProfileId : Option String) (opts : ApiRequestOptions) (st : RunState) :
    (resolveCallTarget gc now ctxProfileId opts st).1.apiCalls = st.apiCalls := rfl

/-- One pass through the gateway body issues at most one upstream call. -/
theorem callSaviyntApiStep_apiCalls_le (gc : GatewayCtx) (now : Int)
    (ctxProfileId : Option String) (retryOn : Bool) (opts : ApiRequestOptions)
    (st : RunState) :
    (callSaviyntApiStep gc now ctxProfileId retryOn opts st).1.apiCalls.length ≤
      st.apiCalls.length + 1 := by
  unfold callSaviyntApiStep
  dsimp only
  split
  · simp [resolveCallTarget_apiCalls]
  · split
    · split
      · simp [ensureBearerToken_apiCalls, resolveCallTarget_apiCalls]
      · rw [apiFetchStep_apiCalls, ensureBearerToken_apiCalls, resolveCallTarget_apiCalls]
    · rw [apiFetchStep_apiCalls, resolveCallTarget_apiCalls]

/-! ## Test fixtures: a configured profile with a cached token, a login
mock that always succeeds, and upstream mocks for the 401 scenarios. -/

/-- An ordinary session profile. -/
def testProfile : ProfileState :=
  { profileId := "p1", username := "u", password := "w", baseUrl := "https://h",
    source := .session, updatedAt := 0 }

/-- A server configuration with no environment credentials. -/
def testCfg : ServerConfig :=
  { defaultBaseUrl := none, defaultApiPath := "api/v5", writesEnabled := true,
    serviceUsername := none, servicePassword := none }

/-- A login mock whose first attempt succeeds with token `tok1`. -/
def loginOk : String → Jsonish → FetchResponse :=
  fun _ _ => ⟨200, "OK", .obj [("access_token", .str "tok1")]⟩

/-- An upstream that answers 401 to every attempt. -/
def apiAlways401 : Nat → FetchResponse :=
  fun _ => ⟨401, "Unauthorized", .str "nope"⟩

/-- An upstream that answers 401 once, then 200 with a JSON body. -/
def api401Then200 : Nat → FetchResponse :=
  fun n =>
    if n = 0 then ⟨401, "Unauthorized", .str "nope"⟩
    else ⟨200, "OK", .obj [("ok", .bool true)]⟩

/-- Core state holding `testProfile` (active) and a valid cached token
`tok0` expiring at time 1000. -/
def testCore : CoreState :=
  { profiles := [("p1", testProfile)],
    tokenCache := [(getTokenCacheKey "p1" "https://h", ⟨some "tok0", some 1000⟩)],
    activeProfileId := some "p1" }

/-- Run state over `testCore`, with empty network logs. -/
def testRun : RunState := { core := testCore, loginCalls := [], apiCalls := [] }

/-- A plain authenticated GET request with all defaults. -/
def testOpts : ApiRequestOptions := { endpoint := "/ECM/api/x", method := some .GET }

/-- Gateway context over the always-401 upstream. -/
def gcAlways401 : GatewayCtx := ⟨testCfg, loginOk, apiAlways401⟩

/-- Gateway context over the 401-then-200 upstream. -/
def gc401Then200 : GatewayCtx := ⟨testCfg, loginOk, api401Then200⟩

/-! ## C1: unauthorized retry -/

/-- C1. A 401 on an authenticated call with `retryOnUnauthorized` still
allowed triggers exactly one retry, performed with the flag forced off:
(i) a body pass with the flag off never signals a retry, so there is no
second retry; (ii) any call issues at most two upstream attempts in
total; (iii) against an upstream that always answers 401, the call makes
exactly two attempts to the target endpoint, performs exactly one forced
re-login, replaces the invalidated cached token with the fresh one, and
fails with the upstream 401 error; (iv) against an upstream that answers
401 once then 200, the call returns the 200 result after exactly two
attempts and one re-login. -/
theorem callSaviyntApi_unauthorized_retry :
    (∀ (gc : GatewayCtx) (now : Int) (ctxProfileId : Option String)
        (opts : ApiRequestOptions) (st : RunState),
      isRetry (callSaviyntApiStep gc now ctxProfileId false opts st).2 = false) ∧
    (∀ (gc : GatewayCtx) (now : Int) (ctxProfileId : Option String)
        (opts : ApiRequestOptions) (st : RunState),
      (callSaviyntApi gc now ctxProfileId opts st).1.apiCalls.length ≤
        st.apiCalls.length + 2) ∧
    ((callSaviyntApi gcAlways401 0 none testOpts testRun).1.apiCalls.length = 2 ∧
      (callSaviyntApi gcAlways401 0 none testOpts testRun).1.loginCalls.length = 1 ∧
      (callSaviyntApi gcAlways401 0 none testOpts testRun).2 =
        .error (.upstream 401 "Unauthorized" "nope") ∧
      (callSaviyntApi gcAlways401 0 none testOpts testRun).1.core.tokenCache =
        [(getTokenCacheKey "p1" "https://h", ⟨some "tok1", some 3312000⟩)]) ∧
    ((callSaviyntApi gc401Then200 0 none testOpts testRun).1.apiCalls.length = 2 ∧
      (callSaviyntApi gc401Then200 0 none testOpts testRun).1.loginCalls.length = 1 ∧
      (callSaviyntApi gc401Then200 0 none testOpts testRun).2 =
        .ok (.obj [("ok", .bool true)])) := by
  refine ⟨callSaviyntApiStep_false_no_retry, ?_, ⟨rfl, rfl, rfl, rfl⟩, ⟨rfl, rfl, rfl⟩⟩
  intro gc now ctxProfileId opts st
  unfold callSaviyntApi
  split
  · rename_i st1 body heq
    have h := congrArg (fun r => r.1.apiCalls.length) heq
    simp only at h
    rw [← h]
    calc (callSaviyntApiStep gc now ctxProfileId (opts.retryOnUnauthorized.getD true) opts st).1.apiCalls.length
        ≤ st.apiCalls.length + 1 := callSaviyntApiStep_apiCalls_le ..
      _ ≤ st.apiCalls.length + 2 := by omega
  · rename_i st1 e heq
    have h := congrArg (fun r => r.1.apiCalls.length) heq
    simp only at h
    rw [← h]
    calc (callSaviyntApiStep gc now ctxProfileId (opts.retryOnUnauthorized.getD true) opts st).1.apiCalls.length
        ≤ st.apiCalls.length + 1 := callSaviyntApiStep_apiCalls_le ..
      _ ≤ st.apiCalls.length + 2 := by omega
  · rename_i st1 pid burl heq
    have h := congrArg (fun r => r.1.apiCalls.length) heq
    simp only at h
    have h1 : st1.apiCalls.length ≤ st.apiCalls.length + 1 := by
      rw [← h]
      exact callSaviyntApiStep_apiCalls_le ..
    dsimp only
    split
    all_goals rename_i st2 r2 heq2
    all_goals have h2 := congrArg (fun r => r.1.apiCalls.length) heq2
    all_goals simp only at h2
    all_goals rw [← h2]
    all_goals calc (callSaviyntApiStep gc now ctxProfileId false _ st1).1.apiCalls.length
        ≤ st1.apiCalls.length + 1 := callSaviyntApiStep_apiCalls_le ..
      _ ≤ st.apiCalls.length + 2 := by omega

/-! ## C2: login fallback chain -/

/-- Core state holding `testProfile` (active) with an empty token cache. -/
def coreNoToken : CoreState :=
  { profiles := [("p1", testProfile)], tokenCache := [], activeProfileId := some "p1" }

/-- Run state over `coreNoToken`, with empty network logs. -/
def runNoToken : RunState := { core := coreNoToken, loginCalls := [], apiCalls := [] }

/-- A login mock where the first three attempts fail in three different
ways (401; success status without a token field; 500) and the fourth
succeeds with a token and expiry nested under a `data` wrapper. -/
def lfMixed : String → Jsonish → FetchResponse :=
  fun endpoint payload =>
    if endpoint = "/ECM/api/login" then
      match payload with
      | .obj [_, _] => ⟨401, "Unauthorized", .str "bad credentials"⟩
      | _ => ⟨200, "OK", .obj [("message", .str "welcome")]⟩
    else
      match payload with
      | .obj [_, _] => ⟨500, "Server Error", .str "boom"⟩
      | _ => ⟨200, "OK",
          .obj [("data", .obj [("token", .str "tok3"), ("expiresIn", .num 7200)])]⟩

/-- A login mock that rejects every attempt with a 401. -/
def lfFail : String → Jsonish → FetchResponse :=
  fun _ _ => ⟨401, "Unauthorized", .str "no"⟩

/-- The login loop stops at the first attempt that has a success status
and carries a recognisable token, making no further calls. -/
theorem tryLoginGo_head_success (f : String → Jsonish → FetchResponse)
    (a : String × Jsonish) (rest : List (String × Jsonish)) (att : List String)
    (cs : List (String × Jsonish)) (tok : String)
    (h : attemptToken f a = some tok) :
    tryLoginGo f (a :: rest) att cs = (cs ++ [a], .ok (tok, (f a.1 a.2).body)) := by
  unfold attemptToken at h
  dsimp only at h
  unfold tryLoginGo
  by_cases hr : respOk (f a.1 a.2) = true
  · rw [if_pos hr] at h
    rw [if_pos hr, h]
  · rw [if_neg hr] at h
    exact absurd h (by simp)

/-- When every attempt fails (bad status or no token field), the login
loop performs all of them in order and returns the full attempt record. -/
theorem tryLoginGo_all_fail (f : String → Jsonish → FetchResponse)
    (l : List (String × Jsonish)) (att : List String)
    (cs : List (String × Jsonish)) (h : ∀ a ∈ l, attemptToken f a = none) :
    tryLoginGo f l att cs = (cs ++ l, .error (att ++ l.map (attemptMsg f))) := by
  induction l generalizing att cs with
  | nil => simp [tryLoginGo]
  | cons a rest ih =>
    have ha := h a (by simp)
    unfold attemptToken at ha
    dsimp only at ha
    unfold tryLoginGo
    by_cases hr : respOk (f a.1 a.2) = true
    · rw [if_pos hr] at ha
      rw [if_pos hr, ha]
      rw [ih (att ++ [a.1 ++ " -> success response but no token field"]) (cs ++ [a])
        (fun a' ha' => h a' (List.mem_cons_of_mem a ha'))]
      simp [attemptMsg, hr, List.append_assoc]
    · rw [if_neg hr]
      rw [ih (att ++ [a.1 ++ " -> " ++ toString (f a.1 a.2).status ++ " " ++ (f a.1 a.2).statusText])
        (cs ++ [a]) (fun a' ha' => h a' (List.mem_cons_of_mem a ha'))]
      simp only [Bool.not_eq_true] at hr
      simp [attemptMsg, hr, List.append_assoc]

/-- C2. The login exchange tries the candidate endpoints in their fixed
order and, within each endpoint, the plain payload then the grant-type
payload: (i) the attempt list is exactly that four-element sequence;
(ii) an attempt with a success status and a recognisable token field
stops the chain at once, performing no further calls; (iii) when every
attempt fails, all four are performed and the error carries the record
of every attempted path/status; (iv) concretely, with three distinct
failures then a success whose token sits under a `data` wrapper, the
token is returned after exactly the four ordered exchanges; (v) with an
all-401 endpoint, `ensureBearerToken` fails with `AuthenticationFailed`
listing all four attempts. -/
theorem ensureBearerToken_login_fallback_chain :
    (∀ u p : String,
      loginAttempts u p =
        [("/ECM/api/login", payloadPlain u p),
         ("/ECM/api/login", payloadGrant u p),
         ("/ECM/api/v1/token", payloadPlain u p),
         ("/ECM/api/v1/token", payloadGrant u p)]) ∧
    (∀ (f : String → Jsonish → FetchResponse) (a : String × Jsonish)
        (rest : List (String × Jsonish)) (att : List String)
        (cs : List (String × Jsonish)) (tok : String),
      attemptToken f a = some tok →
        tryLoginGo f (a :: rest) att cs = (cs ++ [a], .ok (tok, (f a.1 a.2).body))) ∧
    (∀ (f : String → Jsonish → FetchResponse) (l : List (String × Jsonish))
        (att : List String) (cs : List (String × Jsonish)),
      (∀ a ∈ l, attemptToken f a = none) →
        tryLoginGo f l att cs = (cs ++ l, .error (att ++ l.map (attemptMsg f)))) ∧
    (ensureBearerToken testCfg lfMixed 0 false (some "p1") none runNoToken =
      ({ core :=
          { profiles := [("p1", testProfile)],
            tokenCache :=
              [(getTokenCacheKey "p1" "https://h", ⟨some "tok3", some 6624000⟩)],
            activeProfileId := some "p1" },
         loginCalls := loginAttempts "u" "w",
         apiCalls := [] }, .ok "tok3")) ∧
    ((ensureBearerToken testCfg lfFail 0 false (some "p1") none runNoToken).2 =
      .error (.authFailed "p1"
        ["/ECM/api/login -> 401 Unauthorized",
         "/ECM/api/login -> 401 Unauthorized",
         "/ECM/api/v1/token -> 401 Unauthorized",
         "/ECM/api/v1/token -> 401 Unauthorized"])) := by
  exact ⟨fun u p => rfl, tryLoginGo_head_success, tryLoginGo_all_fail, rfl, rfl⟩

/-- Witness for C2: the stop-at-first-success branch applied to the
all-successful mock and the every-attempt-fails branch applied to the
all-401 mock, at concrete inputs. -/
theorem ensureBearerToken_login_fallback_chain_witness :
    tryLoginGo loginOk
        (("/ECM/api/login", payloadPlain "u" "w") ::
          [("/ECM/api/login", payloadGrant "u" "w")]) [] [] =
      ([("/ECM/api/login", payloadPlain "u" "w")],
        .ok ("tok1", .obj [("access_token", .str "tok1")])) ∧
    tryLoginGo lfFail (loginAttempts "u" "w") [] [] =
      ([] ++ loginAttempts "u" "w",
        .error ([] ++ (loginAttempts "u" "w").map (attemptMsg lfFail))) := by
  constructor
  · exact ensureBearerToken_login_fallback_chain.2.1 loginOk
      ("/ECM/api/login", payloadPlain "u" "w")
      [("/ECM/api/login", payloadGrant "u" "w")] [] [] "tok1" rfl
  · exact ensureBearerToken_login_fallback_chain.2.2.1 lfFail
      (loginAttempts "u" "w") [] [] (fun a _ => rfl)

/-! ## C3: cached expiry with early-renewal margin -/

/-- C3. A successful login exchange caches the token with expiry
`now + max(30, ⌊0.92 * lifetime⌋)` seconds (stored in milliseconds),
where the lifetime comes from a recognisable expiry field
(`expiresIn`/`expires_in`/`expires`, directly or one level under
`data`) and defaults to 3600 seconds when none is present: (i) for any
response body carrying a token, the fresh cache entry's expiry is
exactly `now + refreshSeconds (getTokenExpirySeconds body) * 1000`;
(ii) `refreshSeconds` is the `max(30, ⌊92·e/100⌋)` margin, is never
below 30 seconds, and maps 3600 to 3312, 7200 to 6624 and 10 to 30;
(iii) `getTokenExpirySeconds` returns the recognised field when
positive, skips non-positive candidates, reads one level under `data`,
and defaults to 3600. -/
theorem ensureBearerToken_expiry_margin :
    (∀ (now : Int) (body : Jsonish) (tok : String),
      getTokenCandidate body = some tok →
      ensureBearerToken testCfg (fun _ _ => ⟨200, "OK", body⟩) now false (some "p1") none
        runNoToken =
      ({ core :=
          { profiles := [("p1", testProfile)],
            tokenCache := [(getTokenCacheKey "p1" "https://h",
              ⟨some tok, some (now + refreshSeconds (getTokenExpirySeconds body) * 1000)⟩)],
            activeProfileId := some "p1" },
         loginCalls := [("/ECM/api/login", payloadPlain "u" "w")],
         apiCalls := [] }, .ok tok)) ∧
    (∀ e : Int, refreshSeconds e = max 30 (Int.fdiv (e * 92) 100)) ∧
    (∀ e : Int, 30 ≤ refreshSeconds e) ∧
    refreshSeconds 3600 = 3312 ∧
    refreshSeconds 7200 = 6624 ∧
    refreshSeconds 10 = 30 ∧
    getTokenExpirySeconds (.obj [("access_token", .str "t")]) = 3600 ∧
    getTokenExpirySeconds (.str "hello") = 3600 ∧
    getTokenExpirySeconds (.obj [("expiresIn", .num 7200)]) = 7200 ∧
    getTokenExpirySeconds (.obj [("expires_in", .num 1800)]) = 1800 ∧
    getTokenExpirySeconds (.obj [("expiresIn", .num 0), ("expires", .num 500)]) = 500 ∧
    getTokenExpirySeconds (.obj [("data", .obj [("expiresIn", .num 7200)])]) = 7200 := by
  refine ⟨?_, fun e => rfl, fun e => le_max_left 30 _,
    by decide, by decide, by decide, rfl, rfl, rfl, rfl, rfl, rfl⟩
  intro now body tok htok
  have hlogin : tryLoginGo (fun _ _ => (⟨200, "OK", body⟩ : FetchResponse))
      (loginAttempts "u" "w") [] [] =
      ([("/ECM/api/login", payloadPlain "u" "w")], .ok (tok, body)) := by
    have := tryLoginGo_head_success (fun _ _ => (⟨200, "OK", body⟩ : FetchResponse))
      ("/ECM/api/login", payloadPlain "u" "w")
      [("/ECM/api/login", payloadGrant "u" "w"),
       ("/ECM/api/v1/token", payloadPlain "u" "w"),
       ("/ECM/api/v1/token", payloadGrant "u" "w")] [] [] tok
      (by simpa [attemptToken, respOk] using htok)
    simpa [loginAttempts, LOGIN_ENDPOINTS] using this
  unfold ensureBearerToken ensureBearerTokenCore
  rw [show ensureLoggedInProfile testCfg now (some "p1") none runNoToken.core =
    (coreNoToken, .ok testProfile) from rfl]
  dsimp only
  rw [show resolveBaseUrl testCfg none (some testProfile) = .ok "https://h" from rfl]
  dsimp only
  rw [show testProfile.username = "u" from rfl, show testProfile.password = "w" from rfl]
  rw [hlogin]
  dsimp only
  rfl

/-! ## C4: cache usability window -/

/-- The login loop never shrinks the list of calls it has made. -/
theorem tryLoginGo_calls_mono (f : String → Jsonish → FetchResponse)
    (l : List (String × Jsonish)) (att : List String) (cs : List (String × Jsonish)) :
    cs.length ≤ (tryLoginGo f l att cs).1.length := by
  induction l generalizing att cs with
  | nil => simp [tryLoginGo]
  | cons a rest ih =>
    unfold tryLoginGo
    dsimp only
    split
    · split
      · simp
      · calc cs.length ≤ (cs ++ [a]).length := by simp
          _ ≤ _ := ih ..
    · calc cs.length ≤ (cs ++ [a]).length := by simp
        _ ≤ _ := ih ..

/-- Running the login chain always performs at least one exchange. -/
theorem tryLoginGo_performs_call (f : String → Jsonish → FetchResponse)
    (u p : String) (att : List String) :
    0 < (tryLoginGo f (loginAttempts u p) att []).1.length := by
  show 0 < (tryLoginGo f (("/ECM/api/login", payloadPlain u p) :: _) att []).1.length
  unfold tryLoginGo
  dsimp only
  split
  · split
    · simp
    · calc 0 < ([] ++ [("/ECM/api/login", payloadPlain u p)]).length := by simp
        _ ≤ _ := tryLoginGo_calls_mono ..
  · calc 0 < ([] ++ [("/ECM/api/login", payloadPlain u p)]).length := by simp
      _ ≤ _ := tryLoginGo_calls_mono ..

/-- Run state whose token cache holds one entry for `testProfile` with
bearer `tok` and expiry instant `E`. -/
def cachedRun (tok : String) (E : Int) : RunState :=
  { core :=
      { profiles := [("p1", testProfile)],
        tokenCache := [(getTokenCacheKey "p1" "https://h", ⟨some tok, some E⟩)],
        activeProfileId := some "p1" },
    loginCalls := [], apiCalls := [] }

/-- C4. With `forceRefresh = false` and a cached entry expiring at `E`:
for every query time strictly before `E` the cached bearer is returned
and nothing changes; for every query time at or after `E` the entry is
discarded and a fresh login exchange is run — on login failure the
stale entry is gone from the cache, on login success it is replaced by
the freshly obtained token, and in either case at least one login
exchange is performed. -/
theorem getToken_cache_window :
    (∀ (lf : String → Jsonish → FetchResponse) (now E : Int) (tok : String),
      now < E →
      ensureBearerToken testCfg lf now false (some "p1") none (cachedRun tok E) =
        (cachedRun tok E, .ok tok)) ∧
    (∀ (lf : String → Jsonish → FetchResponse) (now E : Int) (tok : String),
      E ≤ now →
      ensureBearerToken testCfg lf now false (some "p1") none (cachedRun tok E) =
        (match tryLoginGo lf (loginAttempts "u" "w") [] [] with
         | (calls, .error att) =>
           ({ core :=
               { profiles := [("p1", testProfile)], tokenCache := [],
                 activeProfileId := some "p1" },
              loginCalls := calls, apiCalls := [] },
            .error (.authFailed "p1" att))
         | (calls, .ok (tok2, body)) =>
           ({ core :=
               { profiles := [("p1", testProfile)],
                 tokenCache := [(getTokenCacheKey "p1" "https://h",
                   ⟨some tok2, some (now + refreshSeconds (getTokenExpirySeconds body) * 1000)⟩)],
                 activeProfileId := some "p1" },
              loginCalls := calls, apiCalls := [] },
            .ok tok2))) ∧
    (∀ (lf : String → Jsonish → FetchResponse) (now E : Int) (tok : String),
      E ≤ now →
      0 < (ensureBearerToken testCfg lf now false (some "p1") none
        (cachedRun tok E)).1.loginCalls.length) := by
  have hresolve : ∀ (now E : Int) (tok : String),
      ensureLoggedInProfile testCfg now (some "p1") none
        { profiles := [("p1", testProfile)],
          tokenCache := [(getTokenCacheKey "p1" "https://h",
            (⟨some tok, some E⟩ : TokenState))],
          activeProfileId := some "p1" } =
      ({ profiles := [("p1", testProfile)],
         tokenCache := [(getTokenCacheKey "p1" "https://h",
           (⟨some tok, some E⟩ : TokenState))],
         activeProfileId := some "p1" }, .ok testProfile) := fun _ _ _ => rfl
  have hcached : ∀ (E : Int) (tok : String),
      lookupKey [(getTokenCacheKey "p1" "https://h", (⟨some tok, some E⟩ : TokenState))]
        (getTokenCacheKey testProfile.profileId "https://h") =
      some ⟨some tok, some E⟩ := fun _ _ => rfl
  have hexpired : ∀ (lf : String → Jsonish → FetchResponse) (now E : Int) (tok : String),
      E ≤ now →
      ensureBearerToken testCfg lf now false (some "p1") none (cachedRun tok E) =
        (match tryLoginGo lf (loginAttempts "u" "w") [] [] with
         | (calls, .error att) =>
           ({ core :=
               { profiles := [("p1", testProfile)], tokenCache := [],
                 activeProfileId := some "p1" },
              loginCalls := calls, apiCalls := [] },
            .error (.authFailed "p1" att))
         | (calls, .ok (tok2, body)) =>
           ({ core :=
               { profiles := [("p1", testProfile)],
                 tokenCache := [(getTokenCacheKey "p1" "https://h",
                   ⟨some tok2, some (now + refreshSeconds (getTokenExpirySeconds body) * 1000)⟩)],
                 activeProfileId := some "p1" },
              loginCalls := calls, apiCalls := [] },
            .ok tok2)) := by
    intro lf now E tok hE
    rcases hr : tryLoginGo lf (loginAttempts "u" "w") [] [] with ⟨calls, res⟩
    unfold cachedRun ensureBearerToken ensureBearerTokenCore
    dsimp only
    rw [hresolve]
    dsimp only
    rw [show resolveBaseUrl testCfg none (some testProfile) = .ok "https://h" from rfl]
    dsimp only
    rw [hcached]
    dsimp only
    rw [if_neg (show ¬(now < E) by omega)]
    rw [show testProfile.username = "u" from rfl, show testProfile.password = "w" from rfl]
    rw [hr]
    dsimp only
    cases res with
    | error att =>
      simp
      first
      | rfl
      | exact ⟨rfl, rfl⟩
      | exact ⟨⟨rfl, rfl⟩, rfl⟩
      | (repeat' constructor) <;> rfl
    | ok tb =>
      rcases tb with ⟨tok2, bdy⟩
      simp [setKey, eraseKey, dropExpiredEntry]
      first
      | rfl
      | exact ⟨rfl, rfl⟩
      | exact ⟨⟨rfl, rfl⟩, rfl⟩
      | (repeat' constructor) <;> rfl
  refine ⟨?_, hexpired, ?_⟩
  · intro lf now E tok hE
    unfold cachedRun ensureBearerToken ensureBearerTokenCore
    dsimp only
    rw [hresolve]
    dsimp only
    rw [show resolveBaseUrl testCfg none (some testProfile) = .ok "https://h" from rfl]
    dsimp only
    rw [hcached]
    dsimp only
    rw [if_pos hE]
    simp [cachedRun]
  · intro lf now E tok hE
    rw [hexpired lf now E tok hE]
    rcases hr : tryLoginGo lf (loginAttempts "u" "w") [] [] with ⟨calls, res⟩
    have hlen : 0 < calls.length := by
      have := tryLoginGo_performs_call lf "u" "w" []
      rw [hr] at this
      exact this
    cases res with
    | error att => simpa using hlen
    | ok tb =>
      rcases tb with ⟨tok2, bdy⟩
      simpa using hlen

/-- Witness for C4: both windows exercised at concrete inputs — time 0
against expiry 1000 serves the cached token unchanged; time 2000
against expiry 1000 discards the entry and performs one fresh login. -/
theorem getToken_cache_window_witness :
    (ensureBearerToken testCfg loginOk 0 false (some "p1") none (cachedRun "tok0" 1000) =
      (cachedRun "tok0" 1000, .ok "tok0")) ∧
    (0 < (ensureBearerToken testCfg loginOk 2000 false (some "p1") none
      (cachedRun "tok0" 1000)).1.loginCalls.length) ∧
    (ensureBearerToken testCfg lfFail 2000 false (some "p1") none (cachedRun "tok0" 1000)).1.core.tokenCache = [] :=
  ⟨getToken_cache_window.1 loginOk 0 1000 "tok0" (by decide),
   getToken_cache_window.2.2 loginOk 2000 1000 "tok0" (by decide),
   by
    rw [getToken_cache_window.2.1 lfFail 2000 1000 "tok0" (by decide)]
    rfl⟩

/-! ## C5: upsert with changed credentials invalidates tokens -/

/-- C5. Upserting an existing profile id with a different username,
password or base URL first removes every cached token keyed by that id
(for every base URL), then stores the new profile: after the upsert no
cache entry for the id remains, the stored profile is the new one with
the new credentials, and a subsequent `getToken` for the profile
performs a fresh login (demonstrated concretely: after changing the
password of the profile holding a valid token, `ensureBearerToken` runs
a login exchange). -/
theorem upsert_credentials_change_invalidates :
    (∀ (now : Int) (core : CoreState) (pid u p b : String) (src : ProfileSource)
        (setActive : Bool) (ex : ProfileState),
      lookupKey core.profiles pid = some ex →
      (ex.username ≠ u ∨ ex.password ≠ p ∨ ex.baseUrl ≠ b) →
      (∀ burl : String,
        lookupKey (upsertProfile now pid u p b src setActive core).1.tokenCache
          (getTokenCacheKey pid burl) = none) ∧
      lookupKey (upsertProfile now pid u p b src setActive core).1.profiles pid =
        some (upsertProfile now pid u p b src setActive core).2 ∧
      (upsertProfile now pid u p b src setActive core).2 =
        { profileId := pid, username := u, password := p, baseUrl := b,
          source := src, updatedAt := now }) ∧
    0 < (ensureBearerToken testCfg loginOk 0 false (some "p1") none
      { core := (upsertProfile 0 "p1" "u" "w2" "https://h" .session true testCore).1,
        loginCalls := [], apiCalls := [] }).1.loginCalls.length := by
  constructor
  · intro now core pid u p b src setActive ex hex hdiff
    have hdiff' : ex.baseUrl ≠ b ∨ ex.username ≠ u ∨ ex.password ≠ p := by tauto
    unfold upsertProfile
    rw [hex]
    dsimp only
    rw [if_pos hdiff']
    refine ⟨?_, ?_, rfl⟩
    · intro burl
      exact lookupKey_clearTokenCacheForProfile pid core.tokenCache burl
    · rw [lookupKey_setKey]
      simp
  · decide

/-- Witness for C5: changing `testProfile`'s password through `upsert`
leaves no cached token for the profile under any base URL. -/
theorem upsert_credentials_change_invalidates_witness :
    (lookupKey (upsertProfile 7 "p1" "u" "w2" "https://h" .session true testCore).1.tokenCache
      (getTokenCacheKey "p1" "https://h") = none) ∧
    (lookupKey (upsertProfile 7 "p1" "u" "w2" "https://h" .session true testCore).1.tokenCache
      (getTokenCacheKey "p1" "https://other") = none) ∧
    lookupKey (upsertProfile 7 "p1" "u" "w2" "https://h" .session true testCore).1.profiles "p1" =
      some (upsertProfile 7 "p1" "u" "w2" "https://h" .session true testCore).2 := by
  have h := upsert_credentials_change_invalidates.1 7 testCore "p1" "u" "w2" "https://h"
    .session true testProfile rfl (by simp [testProfile])
  exact ⟨h.1 "https://h", h.1 "https://other", h.2.1⟩

/-! ## C6: the result-size maxima are re-read per call (spec corrected)
and C8: text truncation envelope -/

/-- Field projection into a result's structured content. -/
def structuredField (r : ToolResult) (k : String) : Option Jsonish :=
  match r.structuredContent with
  | some s => objGet s k
  | none => none

/-- A 25000-character string. -/
def big25000 : String := String.mk (List.replicate 25000 'a')

theorem big25000_length : big25000.length = 25000 := by
  unfold big25000
  show (List.replicate 25000 'a').length = 25000
  rw [List.length_replicate]

/-- C6 counterexample. The claim that both result-size maxima are
consumed once at constructor time and not re-read per call is false:
`createSaviyntMcpServer` captures identical configuration whether or
not `SAVIYNT_MAX_RESULT_TEXT_CHARS` is set (the maxima are not part of
the constructor-time state at all), yet two `okResult` calls within
that same instance — one before and one after the environment variable
changes to `"5"` — shape the same value differently. -/
theorem okResult_maxima_constructor_counterexample :
    mkServerConfig none none {} =
      mkServerConfig none none { SAVIYNT_MAX_RESULT_TEXT_CHARS := some "5" } ∧
    (okResult {} (.str "0123456789")).text ≠
      (okResult { SAVIYNT_MAX_RESULT_TEXT_CHARS := some "5" } (.str "0123456789")).text := by
  constructor
  · rfl
  · decide

/-- C6 (amended). The two result-size maxima are read from the process
environment on every `okResult` call rather than at constructor time:
(i) server construction is insensitive to both maxima variables;
(ii) each call truncates by the maximum parsed from the environment at
that call (falling back to 20000 when unset or non-positive); (iii)
concretely, the same value passes through untruncated under the default
environment and is truncated after the environment changes to a maximum
of 5, within the same server instance. -/
theorem okResult_maxima_reread_per_call :
    (∀ (optU : Option String) (optW : Option Bool) (env : ProcessEnv)
        (m1 m2 m1' m2' : Option String),
      mkServerConfig optU optW
        { env with SAVIYNT_MAX_RESULT_TEXT_CHARS := m1,
                   SAVIYNT_MAX_STRUCTURED_CONTENT_CHARS := m2 } =
      mkServerConfig optU optW
        { env with SAVIYNT_MAX_RESULT_TEXT_CHARS := m1',
                   SAVIYNT_MAX_STRUCTURED_CONTENT_CHARS := m2' }) ∧
    (∀ (env : ProcessEnv) (s : String),
      (okResult env (.str s)).text =
        if s.length >
            positiveIntFromEnv env.SAVIYNT_MAX_RESULT_TEXT_CHARS
              DEFAULT_MAX_RESULT_TEXT_CHARS then
          strTake s (positiveIntFromEnv env.SAVIYNT_MAX_RESULT_TEXT_CHARS
              DEFAULT_MAX_RESULT_TEXT_CHARS) ++ "\n\n" ++
            "... [truncated " ++
            toString (s.length -
              positiveIntFromEnv env.SAVIYNT_MAX_RESULT_TEXT_CHARS
                DEFAULT_MAX_RESULT_TEXT_CHARS) ++
            " chars due to MCP response size limit]"
        else s) ∧
    (okResult {} (.str "0123456789")).text = "0123456789" ∧
    (okResult { SAVIYNT_MAX_RESULT_TEXT_CHARS := some "5" } (.str "0123456789")).text =
      "01234" ++ "\n\n" ++ "... [truncated 5 chars due to MCP response size limit]" := by
  refine ⟨fun optU optW env m1 m2 m1' m2' => rfl, ?_, by decide, by decide⟩
  intro env s
  unfold okResult
  dsimp only
  simp only [show asJsonText (.str s) = s from rfl, show isRecord (.str s) = false from rfl,
    Bool.false_eq_true, if_false]
  split
  · rfl
  · rfl

/-- C8. When the rendered text exceeds the call-time text maximum `M`,
`okResult` returns the first `M` characters plus the truncation marker
and a summary envelope `{success, truncated, originalChars,
returnedChars, message}` in which `originalChars` is the full rendered
length and `returnedChars` is `M`; in particular a 25000-character
rendering under the default maximum 20000 yields `originalChars =
25000`, `returnedChars = 20000`, `truncated = true`, and the truncated
text. -/
theorem okResult_truncation_envelope :
    (∀ (env : ProcessEnv) (s : String),
      s.length > positiveIntFromEnv env.SAVIYNT_MAX_RESULT_TEXT_CHARS
          DEFAULT_MAX_RESULT_TEXT_CHARS →
      okResult env (.str s) =
        { text := strTake s (positiveIntFromEnv env.SAVIYNT_MAX_RESULT_TEXT_CHARS
              DEFAULT_MAX_RESULT_TEXT_CHARS) ++ "\n\n" ++
            "... [truncated " ++
            toString (s.length -
              positiveIntFromEnv env.SAVIYNT_MAX_RESULT_TEXT_CHARS
                DEFAULT_MAX_RESULT_TEXT_CHARS) ++
            " chars due to MCP response size limit]"
          structuredContent := some (.obj
            [("success", .bool true),
             ("truncated", .bool true),
             ("originalChars", .num (s.length : Int)),
             ("returnedChars", .num ((positiveIntFromEnv env.SAVIYNT_MAX_RESULT_TEXT_CHARS
               DEFAULT_MAX_RESULT_TEXT_CHARS : Nat) : Int)),
             ("message", .str "Result was truncated to keep the MCP payload size safe for clients. Add tighter filters/limits.")])
          isError := false }) ∧
    structuredField (okResult {} (.str big25000)) "originalChars" = some (.num 25000) ∧
    structuredField (okResult {} (.str big25000)) "returnedChars" = some (.num 20000) ∧
    structuredField (okResult {} (.str big25000)) "truncated" = some (.bool true) ∧
    (okResult {} (.str big25000)).text =
      strTake big25000 20000 ++ "\n\n" ++ "... [truncated " ++ toString (5000 : Nat) ++
        " chars due to MCP response size limit]" := by
  have hgen : ∀ (env : ProcessEnv) (s : String),
      s.length > positiveIntFromEnv env.SAVIYNT_MAX_RESULT_TEXT_CHARS
          DEFAULT_MAX_RESULT_TEXT_CHARS →
      okResult env (.str s) =
        { text := strTake s (positiveIntFromEnv env.SAVIYNT_MAX_RESULT_TEXT_CHARS
              DEFAULT_MAX_RESULT_TEXT_CHARS) ++ "\n\n" ++
            "... [truncated " ++
            toString (s.length -
              positiveIntFromEnv env.SAVIYNT_MAX_RESULT_TEXT_CHARS
                DEFAULT_MAX_RESULT_TEXT_CHARS) ++
            " chars due to MCP response size limit]"
          structuredContent := some (.obj
            [("success", .bool true),
             ("truncated", .bool true),
             ("originalChars", .num (s.length : Int)),
             ("returnedChars", .num ((positiveIntFromEnv env.SAVIYNT_MAX_RESULT_TEXT_CHARS
               DEFAULT_MAX_RESULT_TEXT_CHARS : Nat) : Int)),
             ("message", .str "Result was truncated to keep the MCP payload size safe for clients. Add tighter filters/limits.")])
          isError := false } := by
    intro env s h
    unfold okResult
    dsimp only
    simp only [show asJsonText (.str s) = s from rfl]
    rw [if_pos h]
  have hM : positiveIntFromEnv (ProcessEnv.SAVIYNT_MAX_RESULT_TEXT_CHARS {})
      DEFAULT_MAX_RESULT_TEXT_CHARS = 20000 := rfl
  have hbig : big25000.length > positiveIntFromEnv
      (ProcessEnv.SAVIYNT_MAX_RESULT_TEXT_CHARS {}) DEFAULT_MAX_RESULT_TEXT_CHARS := by
    rw [hM, big25000_length]
    omega
  have happ := hgen {} big25000 hbig
  rw [hM, big25000_length] at happ
  refine ⟨hgen, ?_, ?_, ?_, ?_⟩
  · rw [happ]
    rfl
  · rw [happ]
    rfl
  · rw [happ]
    rfl
  · rw [happ]

/-- Witness for C8: the truncation envelope applied at a concrete short
string against a maximum of 5. -/
theorem okResult_truncation_envelope_witness :
    ("0123456789" : String).length >
      positiveIntFromEnv
        (ProcessEnv.SAVIYNT_MAX_RESULT_TEXT_CHARS
          { SAVIYNT_MAX_RESULT_TEXT_CHARS := some "5" })
        DEFAULT_MAX_RESULT_TEXT_CHARS ∧
    structuredField (okResult { SAVIYNT_MAX_RESULT_TEXT_CHARS := some "5" }
      (.str "0123456789")) "originalChars" = some (.num 10) := by
  refine ⟨by decide, ?_⟩
  rw [okResult_truncation_envelope.1 { SAVIYNT_MAX_RESULT_TEXT_CHARS := some "5" }
    "0123456789" (by decide)]
  rfl

/-! ## C7: write-disable gate -/

/-- The error every write-gated tool surfaces when writes are off. -/
def writeDisabledError (toolName : String) : ToolError :=
  .writeDisabled
    ("Write operations are disabled. Set SAVIYNT_ENABLE_WRITE=true to enable '" ++
      toolName ++ "'.")

/-- C7. With the write-enable flag off, every write-classified operation
fails with the write-disabled error and returns the run state untouched
— no upstream call and no login exchange is made: the typed v5 write
wrappers (create/update/delete tools via `runV5WriteTool`), the
approve/reject/revoke tools, the generic create/modify/delete resource
tools, and `raw_request` with each write HTTP method (POST, PUT, PATCH,
DELETE). -/
theorem writes_disabled_blocks_before_network :
    ∀ (dbu : Option String) (ap : String) (su sp : Option String)
      (lf : String → Jsonish → FetchResponse) (af : Nat → FetchResponse)
      (now : Int) (ctx : Option String) (st : RunState),
      (∀ (toolName : String) (method : HttpMethod) (operationPath : String) (args : V5Args),
        runV5WriteTool ⟨⟨dbu, ap, false, su, sp⟩, lf, af⟩ now ctx toolName method
          operationPath args st = (st, .error (writeDisabledError toolName))) ∧
      (∀ args : RequestDecisionArgs,
        approveRequestHandler ⟨⟨dbu, ap, false, su, sp⟩, lf, af⟩ now ctx args st =
          (st, .error (writeDisabledError "saviynt_approve_request"))) ∧
      (∀ args : RequestDecisionArgs,
        rejectRequestHandler ⟨⟨dbu, ap, false, su, sp⟩, lf, af⟩ now ctx args st =
          (st, .error (writeDisabledError "saviynt_reject_request"))) ∧
      (∀ args : RevokeAccessArgs,
        revokeAccessHandler ⟨⟨dbu, ap, false, su, sp⟩, lf, af⟩ now ctx args st =
          (st, .error (writeDisabledError "saviynt_revoke_access"))) ∧
      (∀ args : ResourceArgs,
        createResourceHandler ⟨⟨dbu, ap, false, su, sp⟩, lf, af⟩ now ctx args st =
          (st, .error (writeDisabledError "saviynt_create_resource"))) ∧
      (∀ args : ResourceArgs,
        modifyResourceHandler ⟨⟨dbu, ap, false, su, sp⟩, lf, af⟩ now ctx args st =
          (st, .error (writeDisabledError "saviynt_modify_resource"))) ∧
      (∀ args : ResourceArgs,
        deleteResourceHandler ⟨⟨dbu, ap, false, su, sp⟩, lf, af⟩ now ctx args st =
          (st, .error (writeDisabledError "saviynt_delete_resource"))) ∧
      (∀ m ∈ ["POST", "PUT", "PATCH", "DELETE"],
        ∀ (params bodyArg : Option Jsonish) (url pid : Option String),
        rawRequestHandler ⟨⟨dbu, ap, false, su, sp⟩, lf, af⟩ now ctx
          { endpoint := some "/ECM/api/x", method := some m, params := params,
            body := bodyArg, url := url, profileId := pid } st =
          (st, .error (writeDisabledError "raw_request"))) := by
  intro dbu ap su sp lf af now ctx st
  refine ⟨fun _ _ _ _ => rfl, fun _ => rfl, fun _ => rfl, fun _ => rfl,
    fun _ => rfl, fun _ => rfl, fun _ => rfl, ?_⟩
  intro m hm params bodyArg url pid
  fin_cases hm <;> rfl

/-- Witness for C7: the gate exercised concretely for a typed v5 write
tool and for a raw POST request with writes disabled. -/
theorem writes_disabled_blocks_before_network_witness :
    ("POST" : String) ∈ ["POST", "PUT", "PATCH", "DELETE"] ∧
    runV5WriteTool ⟨⟨none, "api/v5", false, none, none⟩, loginOk, apiAlways401⟩ 0 none
      "saviynt_create_user" .POST "createUser" {} testRun =
      (testRun, .error (writeDisabledError "saviynt_create_user")) ∧
    rawRequestHandler ⟨⟨none, "api/v5", false, none, none⟩, loginOk, apiAlways401⟩ 0 none
      { endpoint := some "/ECM/api/x", method := some "POST" } testRun =
      (testRun, .error (writeDisabledError "raw_request")) :=
  ⟨by decide,
   (writes_disabled_blocks_before_network none "api/v5" none none loginOk apiAlways401
     0 none testRun).1 "saviynt_create_user" .POST "createUser" {},
   (writes_disabled_blocks_before_network none "api/v5" none none loginOk apiAlways401
     0 none testRun).2.2.2.2.2.2.2 "POST" (by decide) none none none none⟩

/-! ## Store invariants: well-keyed profiles and a non-dangling active
pointer -/

/-- Every stored profile is keyed by its own id. -/
def profilesWF (core : CoreState) : Prop :=
  ∀ k v, lookupKey core.profiles k = some v → v.profileId = k

/-- The active pointer is null or names a stored profile. -/
def activeOk (core : CoreState) : Prop :=
  ∀ pid, core.activeProfileId = some pid → (lookupKey core.profiles pid).isSome = true

/-- The store invariant the operations preserve. -/
def StoreInv (core : CoreState) : Prop :=
  profilesWF core ∧ activeOk core

theorem upsertProfile_snd (now : Int) (pid u p b : String) (src : ProfileSource)
    (sa : Bool) (core : CoreState) :
    (upsertProfile now pid u p b src sa core).2 =
      { profileId := pid, username := u, password := p, baseUrl := b,
        source := src, updatedAt := now } := rfl

theorem upsertProfile_profiles_lookup (now : Int) (pid u p b : String)
    (src : ProfileSource) (sa : Bool) (core : CoreState) (k : String) :
    lookupKey (upsertProfile now pid u p b src sa core).1.profiles k =
      if pid = k then some (upsertProfile now pid u p b src sa core).2
      else lookupKey core.profiles k := by
  unfold upsertProfile
  dsimp only
  rw [lookupKey_setKey]

theorem upsertProfile_active (now : Int) (pid u p b : String) (src : ProfileSource)
    (sa : Bool) (core : CoreState) :
    (upsertProfile now pid u p b src sa core).1.activeProfileId =
      if sa then some pid else core.activeProfileId := rfl

theorem upsertProfile_tokenCache_none (now : Int) (pid u p b : String)
    (src : ProfileSource) (sa : Bool) (core : CoreState) (k : String)
    (h : lookupKey core.tokenCache k = none) :
    lookupKey (upsertProfile now pid u p b src sa core).1.tokenCache k = none := by
  unfold upsertProfile
  dsimp only
  split
  · split
    · exact lookupKey_filter_of_none _ _ _ h
    · exact h
  · exact h

theorem upsertProfile_StoreInv (now : Int) (pid u p b : String) (src : ProfileSource)
    (sa : Bool) (core : CoreState) (h : StoreInv core) :
    StoreInv (upsertProfile now pid u p b src sa core).1 := by
  constructor
  · intro k v hv
    rw [upsertProfile_profiles_lookup] at hv
    by_cases hk : pid = k
    · rw [if_pos hk] at hv
      cases hv
      rw [upsertProfile_snd]
      exact hk
    · rw [if_neg hk] at hv
      exact h.1 k v hv
  · intro a ha
    rw [upsertProfile_active] at ha
    rw [upsertProfile_profiles_lookup]
    by_cases hk : pid = a
    · rw [if_pos hk]
      rfl
    · rw [if_neg hk]
      by_cases hsa : sa
      · rw [if_pos hsa] at ha
        cases ha
        exact absurd rfl hk
      · rw [if_neg hsa] at ha
        exact h.2 a ha

/-- `ensureAuthFromEnvironment` either leaves the store alone and yields
no profile, or performs exactly an upsert of the environment-default
profile (made active only when no profile was active). -/
theorem ensureAuthFromEnvironment_cases (cfg : ServerConfig) (now : Int)
    (pb : Option String) (core : CoreState) :
    ensureAuthFromEnvironment cfg now pb core = (core, none) ∨
    ∃ u p b, ensureAuthFromEnvironment cfg now pb core =
      ((upsertProfile now ENV_PROFILE_ID u p b .env core.activeProfileId.isNone core).1,
       some (upsertProfile now ENV_PROFILE_ID u p b .env core.activeProfileId.isNone core).2) := by
  unfold ensureAuthFromEnvironment
  dsimp only
  repeat' (first | split | dsimp only)
  all_goals first
    | (left; rfl)
    | (right; exact ⟨_, _, _, rfl⟩)

theorem ensureAuthFromEnvironment_profiles_ne (cfg : ServerConfig) (now : Int)
    (pb : Option String) (core : CoreState) (k : String) (hk : k ≠ ENV_PROFILE_ID) :
    lookupKey (ensureAuthFromEnvironment cfg now pb core).1.profiles k =
      lookupKey core.profiles k := by
  rcases ensureAuthFromEnvironment_cases cfg now pb core with hc | ⟨u, p, b, hc⟩
  · rw [hc]
  · rw [hc]
    dsimp only
    rw [upsertProfile_profiles_lookup, if_neg (fun he => hk he.symm)]

theorem ensureAuthFromEnvironment_tokenCache_none (cfg : ServerConfig) (now : Int)
    (pb : Option String) (core : CoreState) (k : String)
    (h : lookupKey core.tokenCache k = none) :
    lookupKey (ensureAuthFromEnvironment cfg now pb core).1.tokenCache k = none := by
  rcases ensureAuthFromEnvironment_cases cfg now pb core with hc | ⟨u, p, b, hc⟩
  · rw [hc]
    exact h
  · rw [hc]
    exact upsertProfile_tokenCache_none _ _ _ _ _ _ _ _ _ h

theorem ensureAuthFromEnvironment_StoreInv (cfg : ServerConfig) (now : Int)
    (pb : Option String) (core : CoreState) (h : StoreInv core) :
    StoreInv (ensureAuthFromEnvironment cfg now pb core).1 := by
  rcases ensureAuthFromEnvironment_cases cfg now pb core with hc | ⟨u, p, b, hc⟩
  · rw [hc]
    exact h
  · rw [hc]
    exact upsertProfile_StoreInv _ _ _ _ _ _ _ _ h

theorem ensureAuthFromEnvironment_some_mem (cfg : ServerConfig) (now : Int)
    (pb : Option String) (core : CoreState) (p : ProfileState)
    (hp : (ensureAuthFromEnvironment cfg now pb core).2 = some p) :
    lookupKey (ensureAuthFromEnvironment cfg now pb core).1.profiles p.profileId =
      some p := by
  rcases ensureAuthFromEnvironment_cases cfg now pb core with hc | ⟨u, pw, b, hc⟩
  · rw [hc] at hp
    exact Option.noConfusion hp
  · rw [hc] at hp ⊢
    dsimp only at hp ⊢
    cases hp
    rw [upsertProfile_profiles_lookup]
    rw [show (upsertProfile now ENV_PROFILE_ID u pw b .env core.activeProfileId.isNone
      core).2.profileId = ENV_PROFILE_ID from rfl]
    rw [if_pos rfl]

/-- `resolveExistingProfile` preserves the store invariant and returns
only profiles present in its output store. -/
theorem resolveExistingProfile_spec (req : Option String) (core : CoreState)
    (h : StoreInv core) :
    StoreInv (resolveExistingProfile req core).1 ∧
    (∀ p, (resolveExistingProfile req core).2 = some p →
      lookupKey (resolveExistingProfile req core).1.profiles p.profileId = some p) := by
  unfold resolveExistingProfile
  split
  · constructor
    · exact h
    · intro p hp
      dsimp only at hp ⊢
      have := h.1 _ _ hp
      rw [this]
      exact hp
  · split
    · split
      · constructor
        · exact h
        · intro p hp
          dsimp only at hp ⊢
          cases hp
          rename_i heq
          have := h.1 _ _ heq
          rw [this]
          exact heq
      · constructor
        · refine ⟨h.1, ?_⟩
          intro a ha
          exact Option.noConfusion ha
        · intro p hp
          exact Option.noConfusion hp
    · constructor
      · exact h
      · intro p hp
        exact Option.noConfusion hp

/-- `ensureLoggedInProfile` preserves the store invariant, and a profile
it returns is present in its output store under its own id. -/
theorem ensureLoggedInProfile_spec (cfg : ServerConfig) (now : Int)
    (req pb : Option String) (core : CoreState) (h : StoreInv core) :
    StoreInv (ensureLoggedInProfile cfg now req pb core).1 ∧
    (∀ p, (ensureLoggedInProfile cfg now req pb core).2 = .ok p →
      lookupKey (ensureLoggedInProfile cfg now req pb core).1.profiles p.profileId =
        some p) := by
  unfold ensureLoggedInProfile
  dsimp only
  split
  · split
    · constructor
      · exact h
      · intro p hp
        dsimp only at hp ⊢
        cases hp
        rename_i heq
        have := h.1 _ _ heq
        rw [this]
        exact heq
    · split
      · split
        · constructor
          · exact ensureAuthFromEnvironment_StoreInv _ _ _ _ h
          · intro p hp
            cases hp
            rename_i heq
            exact ensureAuthFromEnvironment_some_mem _ _ _ _ _ heq
        · constructor
          · exact ensureAuthFromEnvironment_StoreInv _ _ _ _ h
          · intro p hp
            exact Except.noConfusion hp
      · constructor
        · exact h
        · intro p hp
          exact Except.noConfusion hp
  · have hres := resolveExistingProfile_spec none core h
    split
    · constructor
      · exact hres.1
      · intro p hp
        dsimp only at hp ⊢
        cases hp
        rename_i heq
        exact hres.2 _ heq
    · rename_i heq
      split
      · constructor
        · exact ensureAuthFromEnvironment_StoreInv _ _ _ _ hres.1
        · intro p hp
          dsimp only at hp ⊢
          cases hp
          rename_i heq2
          exact ensureAuthFromEnvironment_some_mem _ _ _ _ _ heq2
      · constructor
        · exact ensureAuthFromEnvironment_StoreInv _ _ _ _ hres.1
        · intro p hp
          exact Except.noConfusion hp

/-- `resolveProfileForRequest` preserves the store invariant, and a
profile it returns is present in its output store under its own id. -/
theorem resolveProfileForRequest_spec (cfg : ServerConfig) (now : Int)
    (req pb : Option String) (core : CoreState) (h : StoreInv core) :
    StoreInv (resolveProfileForRequest cfg now req pb core).1 ∧
    (∀ p, (resolveProfileForRequest cfg now req pb core).2 = some p →
      lookupKey (resolveProfileForRequest cfg now req pb core).1.profiles p.profileId =
        some p) := by
  unfold resolveProfileForRequest
  dsimp only
  split
  · split
    · constructor
      · exact h
      · intro p hp
        dsimp only at hp ⊢
        cases hp
        rename_i heq
        have := h.1 _ _ heq
        rw [this]
        exact heq
    · split
      · exact ⟨ensureAuthFromEnvironment_StoreInv _ _ _ _ h,
          fun p hp => ensureAuthFromEnvironment_some_mem _ _ _ _ _ hp⟩
      · constructor
        · exact h
        · intro p hp
          exact Option.noConfusion hp
  · have hres := resolveExistingProfile_spec none core h
    split
    · constructor
      · exact hres.1
      · intro p hp
        dsimp only at hp ⊢
        cases hp
        rename_i heq
        exact hres.2 _ heq
    · exact ⟨ensureAuthFromEnvironment_StoreInv _ _ _ _ hres.1,
        fun p hp => ensureAuthFromEnvironment_some_mem _ _ _ _ _ hp⟩

/-- The authenticator's state effect on the profile store and the active
pointer: the store is whatever profile resolution produced, and the
pointer is either untouched or set to the resolved profile's id. -/
theorem ensureBearerTokenCore_state (cfg : ServerConfig)
    (lf : String → Jsonish → FetchResponse) (now : Int) (fr : Bool)
    (req pb : Option String) (core : CoreState) :
    (ensureBearerTokenCore cfg lf now fr req pb core).1.profiles =
      (ensureLoggedInProfile cfg now req pb core).1.profiles ∧
    ((ensureBearerTokenCore cfg lf now fr req pb core).1.activeProfileId =
        (ensureLoggedInProfile cfg now req pb core).1.activeProfileId ∨
      ∃ p, (ensureLoggedInProfile cfg now req pb core).2 = .ok p ∧
        (ensureBearerTokenCore cfg lf now fr req pb core).1.activeProfileId =
          some p.profileId) := by
  unfold ensureBearerTokenCore
  dsimp only
  split
  · exact ⟨rfl, .inl rfl⟩
  · rename_i profile heq
    split
    · exact ⟨rfl, .inl rfl⟩
    · split
      · exact ⟨rfl, .inl rfl⟩
      · split
        · exact ⟨dropExpiredEntry_profiles .., .inl (dropExpiredEntry_active ..)⟩
        · refine ⟨dropExpiredEntry_profiles .., .inr ⟨profile, heq, rfl⟩⟩

/-- The authenticator preserves the store invariant: cache writes leave
the profile store alone, and the profile it marks active was looked up
from (or just inserted into) the store. -/
theorem ensureBearerTokenCore_StoreInv (cfg : ServerConfig)
    (lf : String → Jsonish → FetchResponse) (now : Int) (fr : Bool)
    (req pb : Option String) (core : CoreState) (h : StoreInv core) :
    StoreInv (ensureBearerTokenCore cfg lf now fr req pb core).1 := by
  have hres := ensureLoggedInProfile_spec cfg now req pb core h
  have hst := ensureBearerTokenCore_state cfg lf now fr req pb core
  constructor
  · intro k v hv
    rw [hst.1] at hv
    exact hres.1.1 k v hv
  · intro a ha
    rcases hst.2 with hsame | ⟨p, hok, hact⟩
    · rw [hsame] at ha
      rw [hst.1]
      exact hres.1.2 a ha
    · rw [hact] at ha
      cases ha
      rw [hst.1]
      rw [hres.2 p hok]
      rfl

/-! ## C9: profile deletion -/

/-- C9. Deleting a stored profile id removes the profile and every
cached token keyed by it; the success payload reports the final active
pointer. When the deleted profile was not active, the pointer is
untouched. When it was active, the pointer is first cleared and
environment re-materialisation is attempted: with service credentials
and a default base URL configured, the environment-default profile is
stored again and becomes the active profile; without them the pointer
stays cleared. -/
theorem delete_profile_removes_and_rematerializes :
    (∀ (cfg : ServerConfig) (now : Int) (core : CoreState) (pid : String),
      asStringOpt (some pid) = some pid →
      hasKey core.profiles pid = true →
      (deleteProfileHandler cfg now (some pid) core).2 =
        .ok (deleteProfileHandler cfg now (some pid) core).1.activeProfileId ∧
      (pid ≠ ENV_PROFILE_ID →
        lookupKey (deleteProfileHandler cfg now (some pid) core).1.profiles pid = none) ∧
      (∀ b, lookupKey (deleteProfileHandler cfg now (some pid) core).1.tokenCache
        (getTokenCacheKey pid b) = none) ∧
      (core.activeProfileId ≠ some pid →
        (deleteProfileHandler cfg now (some pid) core).1.activeProfileId =
          core.activeProfileId)) ∧
    (∀ (dbu ap su sp : String) (w : Bool) (now : Int) (core : CoreState) (pid : String),
      asStringOpt (some pid) = some pid →
      hasKey core.profiles pid = true →
      core.activeProfileId = some pid →
      0 < su.length → 0 < sp.length → 0 < dbu.length →
      (deleteProfileHandler ⟨some dbu, ap, w, some su, some sp⟩ now (some pid)
        core).1.activeProfileId = some ENV_PROFILE_ID ∧
      lookupKey (deleteProfileHandler ⟨some dbu, ap, w, some su, some sp⟩ now (some pid)
          core).1.profiles ENV_PROFILE_ID =
        some { profileId := ENV_PROFILE_ID, username := su, password := sp,
               baseUrl := normalizeBaseUrl dbu, source := .env, updatedAt := now }) ∧
    (∀ (ap : String) (w : Bool) (now : Int) (core : CoreState) (pid : String),
      asStringOpt (some pid) = some pid →
      hasKey core.profiles pid = true →
      core.activeProfileId = some pid →
      (deleteProfileHandler ⟨none, ap, w, none, none⟩ now (some pid)
        core).1.activeProfileId = none) := by
  refine ⟨?_, ?_, ?_⟩
  · intro cfg now core pid h1 h2
    unfold deleteProfileHandler
    rw [h1]
    dsimp only
    rw [if_pos h2]
    dsimp only
    refine ⟨rfl, ?_, ?_, ?_⟩
    · intro hpid
      by_cases hact : core.activeProfileId = some pid
      · rw [if_pos hact]
        rw [ensureAuthFromEnvironment_profiles_ne _ _ _ _ _ hpid]
        dsimp only
        rw [lookupKey_eraseKey, if_pos rfl]
      · rw [if_neg hact]
        dsimp only
        rw [lookupKey_eraseKey, if_pos rfl]
    · intro b
      by_cases hact : core.activeProfileId = some pid
      · rw [if_pos hact]
        apply ensureAuthFromEnvironment_tokenCache_none
        exact lookupKey_clearTokenCacheForProfile ..
      · rw [if_neg hact]
        exact lookupKey_clearTokenCacheForProfile ..
    · intro hne
      rw [if_neg hne]
  · intro dbu ap su sp w now core pid h1 h2 hact hsu hsp hdbu
    unfold deleteProfileHandler
    rw [h1]
    dsimp only
    rw [if_pos h2]
    dsimp only
    rw [if_pos hact]
    unfold ensureAuthFromEnvironment
    rw [if_pos ⟨by simpa [strTruthy] using hsu, by simpa [strTruthy] using hsp⟩]
    dsimp only [asStringOpt]
    rw [if_pos (by simpa [strTruthy] using hdbu)]
    dsimp only
    constructor
    · rw [upsertProfile_active]
      rfl
    · rw [upsertProfile_profiles_lookup, if_pos rfl, upsertProfile_snd]
      rfl
  · intro ap w now core pid h1 h2 hact
    unfold deleteProfileHandler
    rw [h1]
    dsimp only
    rw [if_pos h2]
    dsimp only
    rw [if_pos hact]
    unfold ensureAuthFromEnvironment
    rw [if_neg (by simp [strTruthy])]

/-- Witness for C9: deleting the active profile `p1` with no environment
credentials clears the pointer, removes the profile and its token; with
environment credentials and a default base URL, the environment-default
profile is re-materialised and becomes active. -/
theorem delete_profile_removes_and_rematerializes_witness :
    lookupKey (deleteProfileHandler testCfg 0 (some "p1") testCore).1.profiles "p1" =
      none ∧
    lookupKey (deleteProfileHandler testCfg 0 (some "p1") testCore).1.tokenCache
      (getTokenCacheKey "p1" "https://h") = none ∧
    (deleteProfileHandler ⟨none, "api/v5", true, none, none⟩ 0 (some "p1")
      testCore).1.activeProfileId = none ∧
    (deleteProfileHandler ⟨some "https://env", "api/v5", true, some "svc", some "pw"⟩ 0
      (some "p1") testCore).1.activeProfileId = some ENV_PROFILE_ID ∧
    lookupKey (deleteProfileHandler ⟨some "https://env", "api/v5", true, some "svc",
        some "pw"⟩ 0 (some "p1") testCore).1.profiles ENV_PROFILE_ID =
      some { profileId := ENV_PROFILE_ID, username := "svc", password := "pw",
             baseUrl := normalizeBaseUrl "https://env", source := .env, updatedAt := 0 } := by
  have hA := delete_profile_removes_and_rematerializes.1 testCfg 0 testCore "p1" rfl rfl
  have hB := delete_profile_removes_and_rematerializes.2.1 "https://env" "api/v5" "svc"
    "pw" true 0 testCore "p1" rfl rfl rfl (by decide) (by decide) (by decide)
  have hC := delete_profile_removes_and_rematerializes.2.2 "api/v5" true 0 testCore "p1"
    rfl rfl rfl
  exact ⟨hA.2.1 (by decide), hA.2.2.1 "https://h", hC, hB.1, hB.2⟩

/-! ## C10: the active pointer never dangles -/

theorem deleteProfileHandler_StoreInv (cfg : ServerConfig) (now : Int)
    (arg : Option String) (core : CoreState) (h : StoreInv core) :
    StoreInv (deleteProfileHandler cfg now arg core).1 := by
  unfold deleteProfileHandler
  split
  · exact h
  · rename_i profileId heq
    split
    · dsimp only
      have hWF : profilesWF
          { core with
            profiles := eraseKey core.profiles profileId
            tokenCache := clearTokenCacheForProfile profileId core.tokenCache } := by
        intro k v hv
        dsimp only at hv
        rw [lookupKey_eraseKey] at hv
        split at hv
        · exact Option.noConfusion hv
        · exact h.1 k v hv
      split
      · rename_i hact
        apply ensureAuthFromEnvironment_StoreInv
        refine ⟨?_, ?_⟩
        · intro k v hv
          exact hWF k v hv
        · intro a ha
          exact Option.noConfusion ha
      · rename_i hact
        refine ⟨hWF, ?_⟩
        intro a ha
        dsimp only at ha ⊢
        rw [lookupKey_eraseKey]
        rw [if_neg (fun hpe => hact (by rw [ha, hpe]))]
        exact h.2 a ha
    · exact h

theorem setActiveProfileHandler_StoreInv (cfg : ServerConfig) (now : Int)
    (arg : Option String) (core : CoreState) (h : StoreInv core) :
    StoreInv (setActiveProfileHandler cfg now arg core).1 := by
  unfold setActiveProfileHandler
  split
  · exact h
  · rename_i profileId heq
    dsimp only
    cases hl : lookupKey core.profiles profileId with
    | some p =>
      dsimp only
      refine ⟨h.1, ?_⟩
      intro a ha
      dsimp only at ha
      cases ha
      rw [h.1 _ _ hl, hl]
      rfl
    | none =>
      dsimp only
      by_cases hE : profileId = ENV_PROFILE_ID
      · rw [if_pos hE]
        split
        · rename_i profile heq2
          refine ⟨(ensureAuthFromEnvironment_StoreInv _ _ _ _ h).1, ?_⟩
          intro a ha
          dsimp only at ha
          cases ha
          rw [ensureAuthFromEnvironment_some_mem _ _ _ _ _ heq2]
          rfl
        · exact ensureAuthFromEnvironment_StoreInv _ _ _ _ h
      · rw [if_neg hE]
        exact h

theorem profileStatusHandlerState_StoreInv (cfg : ServerConfig) (now : Int)
    (core : CoreState) (h : StoreInv core) :
    StoreInv (profileStatusHandlerState cfg now core) := by
  unfold profileStatusHandlerState
  have h1 := ensureAuthFromEnvironment_StoreInv cfg now none core h
  dsimp only
  split
  · exact h1
  · split
    · rename_i p heq
      have hmem : lookupKey (ensureAuthFromEnvironment cfg now none core).1.profiles
          p.profileId = some p := by
        cases hA : (ensureAuthFromEnvironment cfg now none core).1.activeProfileId with
        | none =>
          rw [hA] at heq
          dsimp only at heq
          rw [h1.1 _ _ heq]
          exact heq
        | some a =>
          rw [hA] at heq
          dsimp only at heq
          cases hL : lookupKey (ensureAuthFromEnvironment cfg now none core).1.profiles
              a with
          | none =>
            rw [hL] at heq
            dsimp only at heq
            rw [h1.1 _ _ heq]
            exact heq
          | some q =>
            rw [hL] at heq
            dsimp only at heq
            cases heq
            rw [h1.1 _ _ hL]
            exact hL
      split
      · exact h1
      · refine ⟨h1.1, ?_⟩
        intro a ha
        dsimp only at ha
        cases ha
        rw [hmem]
        rfl
    · exact h1

theorem loginHandler_StoreInv (gc : GatewayCtx) (now : Int) (args : LoginArgs)
    (st : RunState) (h : StoreInv st.core) :
    StoreInv (loginHandler gc now args st).1.core := by
  unfold loginHandler
  split
  · dsimp only
    split
    · exact h
    · split
      · exact ensureBearerTokenCore_StoreInv _ _ _ _ _ _ _
          (upsertProfile_StoreInv _ _ _ _ _ _ _ _ h)
      · exact ensureBearerTokenCore_StoreInv _ _ _ _ _ _ _
          (upsertProfile_StoreInv _ _ _ _ _ _ _ _ h)
  · exact h

theorem upsertProfileHandler_StoreInv (gc : GatewayCtx) (now : Int)
    (args : UpsertProfileArgs) (st : RunState) (h : StoreInv st.core) :
    StoreInv (upsertProfileHandler gc now args st).1.core := by
  unfold upsertProfileHandler
  dsimp only
  split
  · split
    · split
      · exact ensureBearerTokenCore_StoreInv _ _ _ _ _ _ _
          (upsertProfile_StoreInv _ _ _ _ _ _ _ _ h)
      · exact ensureBearerTokenCore_StoreInv _ _ _ _ _ _ _
          (upsertProfile_StoreInv _ _ _ _ _ _ _ _ h)
    · exact upsertProfile_StoreInv _ _ _ _ _ _ _ _ h
  · exact h

/-- C10. After every completed core operation — profile upsert, login,
set-active, profile deletion, token acquisition, and the status
listing's state transition — the store invariant holds: every stored
profile is keyed by its own id, and the active pointer is either null
or names a profile present in the store (it never dangles). -/
theorem active_pointer_never_dangles
    (cfg : ServerConfig) (gc : GatewayCtx) (now : Int)
    (uargs : UpsertProfileArgs) (largs : LoginArgs) (arg : Option String)
    (lf : String → Jsonish → FetchResponse) (fr : Bool) (req pb : Option String)
    (core : CoreState) (st : RunState) (hc : StoreInv core) (hs : StoreInv st.core) :
    StoreInv (upsertProfileHandler gc now uargs st).1.core ∧
    StoreInv (loginHandler gc now largs st).1.core ∧
    StoreInv (setActiveProfileHandler cfg now arg core).1 ∧
    StoreInv (deleteProfileHandler cfg now arg core).1 ∧
    StoreInv (ensureBearerToken cfg lf now fr req pb st).1.core ∧
    StoreInv (profileStatusHandlerState cfg now core) :=
  ⟨upsertProfileHandler_StoreInv gc now uargs st hs,
   loginHandler_StoreInv gc now largs st hs,
   setActiveProfileHandler_StoreInv cfg now arg core hc,
   deleteProfileHandler_StoreInv cfg now arg core hc,
   ensureBearerTokenCore_StoreInv cfg lf now fr req pb st.core hs,
   profileStatusHandlerState_StoreInv cfg now core hc⟩

/-- The concrete test store satisfies the invariant. -/
theorem testCore_StoreInv : StoreInv testCore := by
  constructor
  · intro k v hv
    by_cases hk : "p1" = k
    · rw [show lookupKey testCore.profiles k =
          (if "p1" = k then some testProfile else none) from rfl, if_pos hk] at hv
      cases hv
      rw [← hk]
      rfl
    · rw [show lookupKey testCore.profiles k =
          (if "p1" = k then some testProfile else none) from rfl, if_neg hk] at hv
      exact Option.noConfusion hv
  · intro a ha
    rw [show testCore.activeProfileId = some "p1" from rfl] at ha
    cases ha
    rfl

/-- Witness for C10: the invariant instantiated at the concrete test
store, across a deletion, a set-active call and a status listing. -/
theorem active_pointer_never_dangles_witness :
    StoreInv testCore ∧
    StoreInv (setActiveProfileHandler testCfg 0 (some "p1") testCore).1 ∧
    StoreInv (deleteProfileHandler testCfg 0 (some "p1") testCore).1 ∧
    StoreInv (profileStatusHandlerState testCfg 0 testCore) := by
  have hw := active_pointer_never_dangles testCfg gcAlways401 0 {} {} (some "p1")
    loginOk false none none testCore testRun testCore_StoreInv testCore_StoreInv
  exact ⟨testCore_StoreInv, hw.2.2.1, hw.2.2.2.1, hw.2.2.2.2.2⟩

/-- Witness for C3: the expiry-margin equation applied at a concrete
response body whose lifetime field reports 7200 seconds. -/
theorem ensureBearerToken_expiry_margin_witness :
    getTokenCandidate (.obj [("access_token", .str "tokW"), ("expiresIn", .num 7200)]) =
      some "tokW" ∧
    ensureBearerToken testCfg
      (fun _ _ => ⟨200, "OK", .obj [("access_token", .str "tokW"), ("expiresIn", .num 7200)]⟩)
      5 false (some "p1") none runNoToken =
    ({ core :=
        { profiles := [("p1", testProfile)],
          tokenCache := [(getTokenCacheKey "p1" "https://h",
            ⟨some "tokW", some (5 + refreshSeconds (getTokenExpirySeconds
              (.obj [("access_token", .str "tokW"), ("expiresIn", .num 7200)])) * 1000)⟩)],
          activeProfileId := some "p1" },
       loginCalls := [("/ECM/api/login", payloadPlain "u" "w")],
       apiCalls := [] }, .ok "tokW") :=
  ⟨rfl, ensureBearerToken_expiry_margin.1 5
    (.obj [("access_token", .str "tokW"), ("expiresIn", .num 7200)]) "tokW" rfl⟩

end Saviynt
